import Mathlib

/-!
Shallow embedding of the metrics-server repository: the `MetricsClient`
aggregation core (`metrics_client.py`), the CLI `UtilizationMonitor`
(`kube-utilization-monitor.py`) and the HTTP formatter
(`metrics_server/metrics_server.py`).

Modelling conventions:
* Python `int` values (protobuf `int64_value` fields, byte counts) are `ℤ`.
* Python `float` values (`double_value` fields, ratios, cores) are `ℚ`.
* A fallible Python computation (exception) is `Except`.
* The backend (`list_time_series`) is abstracted: an aggregation call takes,
  for each of its four queries, the list of time series the backend returned
  for that query, in the order the `async for` loop consumes them.  The four
  concurrently-running result handlers write pairwise-disjoint fields, so any
  interleaving yields the same per-key field values; the embedding runs them
  in the order they are passed to `asyncio.gather`.
* Presentation-only string rendering (`tabulate`, `termcolor` text,
  `f`-string number formatting) is abstracted: table rows keep the records
  they are built from, and the gradient helpers return the chosen color tier.
-/

/-- One step of the substring scan: does `sub` occur at the head of `s`?
Models the head-anchored part of Python's `sub in s`. -/
def startsWithChars : List Char → List Char → Bool
  | [], _ => true
  | _ :: _, [] => false
  | a :: as, b :: bs => a = b && startsWithChars as bs

/-- Does `sub` occur (contiguously) anywhere in `s`?  Helper for `pyin`. -/
def infixCheck (sub : List Char) : List Char → Bool
  | [] => sub.isEmpty
  | s@(_ :: rest) => startsWithChars sub s || infixCheck sub rest

/-- Python's substring test `sub in s` on strings. -/
def pyin (sub s : String) : Bool :=
  infixCheck sub.data s.data

/-- The `value` of a time-series point (protobuf `TypedValue`): the handlers
read either its `int64_value` or its `double_value`. -/
structure TypedValue where
  int64_value : ℤ := 0
  double_value : ℚ := 0
deriving DecidableEq

/-- One aligned point of a time series. -/
structure Point where
  value : TypedValue
deriving DecidableEq

/-- One time series returned by the backend for a query, carrying the
group-by labels used to key containers and its list of aligned points. -/
structure TimeSeries where
  namespace_name : String
  container_name : String
  top_level_controller_name : String
  points : List Point
deriving DecidableEq

/-- The composite identity of a container row:
`(namespace, container name, top-level controller name)`. -/
abbrev ContainerKey := String × String × String

/-- The `container_key` tuple built in `upsert_container`. -/
def container_key (ts : TimeSeries) : ContainerKey :=
  (ts.namespace_name, ts.container_name, ts.top_level_controller_name)

/-- The exceptions a per-series result handler can raise when a series has no
points: `points[0]` (IndexError), `max(points, key=...)` of an empty sequence
(ValueError), `statistics.mean([])` (StatisticsError). -/
inductive MetricsError
  | indexError
  | maxOfEmpty
  | meanOfEmpty
deriving DecidableEq

/-- `metrics.points[0].value.int64_value`. -/
def first_point_int64 : List Point → Except MetricsError ℤ
  | [] => .error .indexError
  | p :: _ => .ok p.value.int64_value

/-- `metrics.points[0].value.double_value`. -/
def first_point_double : List Point → Except MetricsError ℚ
  | [] => .error .indexError
  | p :: _ => .ok p.value.double_value

/-- `max(metrics.points, key=lambda point: point.value.int64_value).value.int64_value`:
the extracted value is the maximum of the points' `int64_value`s. -/
def max_point_int64 : List Point → Except MetricsError ℤ
  | [] => .error .maxOfEmpty
  | p :: ps => .ok ((ps.map (fun q => q.value.int64_value)).foldl max p.value.int64_value)

/-- `max(metrics.points, key=lambda point: point.value.double_value).value.double_value`. -/
def max_point_double : List Point → Except MetricsError ℚ
  | [] => .error .maxOfEmpty
  | p :: ps => .ok ((ps.map (fun q => q.value.double_value)).foldl max p.value.double_value)

/-- `statistics.mean([point.value.double_value for point in metrics.points])`. -/
def mean_point_double (points : List Point) : Except MetricsError ℚ :=
  if points.isEmpty then .error .meanOfEmpty
  else .ok ((points.map (fun p => p.value.double_value)).sum / (points.length : ℚ))

/-- The per-session `container_metrics` dict, as an insertion-ordered
association list with record type `γ` (each source file has its own
`ContainerMetrics` dataclass). -/
abbrev KeyedTable (γ : Type) := List (ContainerKey × γ)

/-- `self.container_metrics.get(container_key)`. -/
def find_container {γ : Type} : KeyedTable γ → ContainerKey → Option γ
  | [], _ => none
  | (k, m) :: rest, key => if k = key then some m else find_container rest key

/-- `upsert_container`: get the record for the series' key, creating a fresh
record (via `new`, the dataclass constructor with only the identity labels)
at the end of the dict when absent. -/
def upsert_container {γ : Type} (new : TimeSeries → γ) (st : KeyedTable γ)
    (ts : TimeSeries) : KeyedTable γ :=
  match find_container st (container_key ts) with
  | some _ => st
  | none => st ++ [(container_key ts, new ts)]

/-- Assigning to one attribute of the record stored under `key`
(`container.field = ...` through the reference `upsert_container` returned). -/
def update_entry {γ : Type} (st : KeyedTable γ) (key : ContainerKey)
    (f : γ → γ) : KeyedTable γ :=
  st.map (fun e => if e.1 = key then (e.1, f e.2) else e)

/-- The common shape of every result handler (`async for metrics in results`):
for each series, `upsert_container`, compute the per-series value from the
points (which may raise), and write the handler's one field. -/
def run_handler {γ α : Type} (new : TimeSeries → γ)
    (extract : List Point → Except MetricsError α) (write : α → γ → γ) :
    KeyedTable γ → List TimeSeries → Except MetricsError (KeyedTable γ)
  | st, [] => .ok st
  | st, ts :: rest =>
    let st1 := upsert_container new st ts
    match extract ts.points with
    | .error e => .error e
    | .ok v => run_handler new extract write
        (update_entry st1 (container_key ts) (write v)) rest

namespace MetricsClient

/-- The `ContainerMetrics` dataclass of `metrics_client.py` (the module the
HTTP server imports as `gcp_metrics_client`).  The Python field `namespace`
is called `namespace_name` because `namespace` is reserved in Lean. -/
structure ContainerMetrics where
  container_name : String
  top_level_controller_name : String
  namespace_name : String
  memory_request : ℤ := 0
  avg_memory_usage : ℚ := 0
  avg_memory_request_utilization : ℚ := 0
  max_memory_usage : ℤ := 0
  unutilized_memory : ℤ := 0
  cpu_request : ℚ := 0
  avg_cpu_usage : ℚ := 0
  avg_cpu_request_utilization : ℚ := 0
  max_cpu_usage : ℚ := 0
  unutilized_cpu : ℚ := 0
deriving DecidableEq

/-- The record `upsert_container` creates on first reference: only the three
identity labels are passed, every metric field keeps its default `0`. -/
def new_container (ts : TimeSeries) : ContainerMetrics :=
  { namespace_name := ts.namespace_name
    container_name := ts.container_name
    top_level_controller_name := ts.top_level_controller_name }

/-- The server client's `container_metrics` table. -/
abbrev MetricsTable := KeyedTable ContainerMetrics

/-- Handler of the memory `request_utilization` query (mean of points). -/
def query_avg_memory_request_utilization (st : MetricsTable) (l : List TimeSeries) :
    Except MetricsError MetricsTable :=
  run_handler new_container mean_point_double
    (fun v m => { m with avg_memory_request_utilization := v }) st l

/-- Handler of the memory `used_bytes` max query (max-valued point). -/
def query_max_memory_usage (st : MetricsTable) (l : List TimeSeries) :
    Except MetricsError MetricsTable :=
  run_handler new_container max_point_int64
    (fun v m => { m with max_memory_usage := v }) st l

/-- Handler of the memory `used_bytes` mean query (mean of points). -/
def query_avg_memory_usage (st : MetricsTable) (l : List TimeSeries) :
    Except MetricsError MetricsTable :=
  run_handler new_container mean_point_double
    (fun v m => { m with avg_memory_usage := v }) st l

/-- Handler of the memory `request_bytes` query: writes `points[0]`'s value. -/
def query_memory_request (st : MetricsTable) (l : List TimeSeries) :
    Except MetricsError MetricsTable :=
  run_handler new_container first_point_int64
    (fun v m => { m with memory_request := v }) st l

/-- Handler of the cpu `request_utilization` query (mean of points). -/
def query_avg_cpu_request_utilization (st : MetricsTable) (l : List TimeSeries) :
    Except MetricsError MetricsTable :=
  run_handler new_container mean_point_double
    (fun v m => { m with avg_cpu_request_utilization := v }) st l

/-- Handler of the cpu `core_usage_time` max query (max-valued point). -/
def query_max_cpu_usage (st : MetricsTable) (l : List TimeSeries) :
    Except MetricsError MetricsTable :=
  run_handler new_container max_point_double
    (fun v m => { m with max_cpu_usage := v }) st l

/-- Handler of the cpu `core_usage_time` mean query: writes `points[0]`. -/
def query_avg_cpu_usage (st : MetricsTable) (l : List TimeSeries) :
    Except MetricsError MetricsTable :=
  run_handler new_container first_point_double
    (fun v m => { m with avg_cpu_usage := v }) st l

/-- Handler of the cpu `request_cores` query: writes `points[0]`. -/
def query_cpu_request (st : MetricsTable) (l : List TimeSeries) :
    Except MetricsError MetricsTable :=
  run_handler new_container first_point_double
    (fun v m => { m with cpu_request := v }) st l

/-- The post-`gather` loop of `query_memory_utilization`: delete every entry
whose container name contains `"overprovisioner"`, and set
`unutilized_memory = max(0, memory_request - max_memory_usage)` on the rest. -/
def finalize_memory : MetricsTable → MetricsTable
  | [] => []
  | (k, m) :: rest =>
    if pyin "overprovisioner" m.container_name then finalize_memory rest
    else (k, { m with
      unutilized_memory := max 0 (m.memory_request - m.max_memory_usage) })
      :: finalize_memory rest

/-- The post-`gather` loop of `query_cpu_utilization`: delete overprovisioner
entries and set `unutilized_cpu = max(0, cpu_request - max_cpu_usage)`. -/
def finalize_cpu : MetricsTable → MetricsTable
  | [] => []
  | (k, m) :: rest =>
    if pyin "overprovisioner" m.container_name then finalize_cpu rest
    else (k, { m with
      unutilized_cpu := max 0 (m.cpu_request - m.max_cpu_usage) })
      :: finalize_cpu rest

/-- The backend's answers to the four memory-family queries. -/
structure MemoryQueryResults where
  request_utilization : List TimeSeries
  used_bytes_max : List TimeSeries
  used_bytes_mean : List TimeSeries
  request_bytes : List TimeSeries
deriving DecidableEq

/-- The backend's answers to the four cpu-family queries. -/
structure CpuQueryResults where
  request_utilization : List TimeSeries
  core_usage_time_max : List TimeSeries
  core_usage_time_mean : List TimeSeries
  request_cores : List TimeSeries
deriving DecidableEq

/-- `query_memory_utilization` up to the keyed table: run the four handlers
(the writes are field-disjoint, so the `gather` interleaving is immaterial),
then the finalization loop. -/
def query_memory_utilization_entries (r : MemoryQueryResults) :
    Except MetricsError MetricsTable :=
  match query_avg_memory_request_utilization [] r.request_utilization with
  | .error e => .error e
  | .ok st1 =>
  match query_max_memory_usage st1 r.used_bytes_max with
  | .error e => .error e
  | .ok st2 =>
  match query_avg_memory_usage st2 r.used_bytes_mean with
  | .error e => .error e
  | .ok st3 =>
  match query_memory_request st3 r.request_bytes with
  | .error e => .error e
  | .ok st4 => .ok (finalize_memory st4)

/-- `query_memory_utilization`: the list of `ContainerMetrics` values. -/
def query_memory_utilization (r : MemoryQueryResults) :
    Except MetricsError (List ContainerMetrics) :=
  (query_memory_utilization_entries r).map (fun st => st.map Prod.snd)

/-- `query_cpu_utilization` up to the keyed table. -/
def query_cpu_utilization_entries (r : CpuQueryResults) :
    Except MetricsError MetricsTable :=
  match query_avg_cpu_request_utilization [] r.request_utilization with
  | .error e => .error e
  | .ok st1 =>
  match query_max_cpu_usage st1 r.core_usage_time_max with
  | .error e => .error e
  | .ok st2 =>
  match query_avg_cpu_usage st2 r.core_usage_time_mean with
  | .error e => .error e
  | .ok st3 =>
  match query_cpu_request st3 r.request_cores with
  | .error e => .error e
  | .ok st4 => .ok (finalize_cpu st4)

/-- `query_cpu_utilization`: the list of `ContainerMetrics` values. -/
def query_cpu_utilization (r : CpuQueryResults) :
    Except MetricsError (List ContainerMetrics) :=
  (query_cpu_utilization_entries r).map (fun st => st.map Prod.snd)

/-- `MetricsClient.query`'s filter construction: append the `kube-system`
exclusion, then (when `self.namespaces` is truthy) the OR-clause over the
allow-listed namespaces. -/
def build_query_filter (namespaces : List String) (query_filter : String) : String :=
  let qf := query_filter ++ " AND resource.labels.namespace_name != \"kube-system\""
  if namespaces.isEmpty then qf
  else qf ++ " AND (" ++ String.intercalate " OR "
    (namespaces.map
      (fun ns => "resource.labels.namespace_name = \"" ++ ns ++ "\"")) ++ ")"

end MetricsClient

namespace KubeUtilizationMonitor

/-- The `ContainerMetrics` dataclass of `kube-utilization-monitor.py`: memory
fields only; `unutilized_memory` is a `@property`, not a stored field. -/
structure ContainerMetrics where
  container_name : String
  top_level_controller_name : String
  namespace_name : String
  memory_request : ℤ := 0
  avg_memory_usage : ℚ := 0
  avg_memory_request_utilization : ℚ := 0
  max_memory_usage : ℤ := 0
deriving DecidableEq

/-- The CLI dataclass's `unutilized_memory` property:
`max(0, self.memory_request - self.max_memory_usage)`. -/
def ContainerMetrics.unutilized_memory (m : ContainerMetrics) : ℤ :=
  max 0 (m.memory_request - m.max_memory_usage)

/-- The record the CLI's `upsert_container` creates on first reference. -/
def new_container (ts : TimeSeries) : ContainerMetrics :=
  { namespace_name := ts.namespace_name
    container_name := ts.container_name
    top_level_controller_name := ts.top_level_controller_name }

/-- The CLI monitor's `container_metrics` table. -/
abbrev CliTable := KeyedTable ContainerMetrics

/-- CLI handler of the `request_utilization` query: writes `points[0]`. -/
def query_avg_memory_request_utilization (st : CliTable) (l : List TimeSeries) :
    Except MetricsError CliTable :=
  run_handler new_container first_point_double
    (fun v m => { m with avg_memory_request_utilization := v }) st l

/-- CLI handler of the `used_bytes` max query: writes `points[0]`. -/
def query_max_memory_usage (st : CliTable) (l : List TimeSeries) :
    Except MetricsError CliTable :=
  run_handler new_container first_point_int64
    (fun v m => { m with max_memory_usage := v }) st l

/-- CLI handler of the `used_bytes` mean query: writes `points[0]`. -/
def query_avg_memory_usage (st : CliTable) (l : List TimeSeries) :
    Except MetricsError CliTable :=
  run_handler new_container first_point_double
    (fun v m => { m with avg_memory_usage := v }) st l

/-- CLI handler of the `request_bytes` query: writes `points[0]`. -/
def query_memory_request (st : CliTable) (l : List TimeSeries) :
    Except MetricsError CliTable :=
  run_handler new_container first_point_int64
    (fun v m => { m with memory_request := v }) st l

/-- The post-`gather` loop of the CLI's `query_metrics`: delete every entry
whose container name contains `"overprovisioner"` (nothing else is done
there; `unutilized_memory` is a property). -/
def filter_overprovisioner : CliTable → CliTable
  | [] => []
  | (k, m) :: rest =>
    if pyin "overprovisioner" m.container_name then filter_overprovisioner rest
    else (k, m) :: filter_overprovisioner rest

/-- The backend's answers to the CLI's four queries. -/
structure CliQueryResults where
  request_utilization : List TimeSeries
  used_bytes_max : List TimeSeries
  used_bytes_mean : List TimeSeries
  request_bytes : List TimeSeries
deriving DecidableEq

/-- The CLI's `query_metrics`: the four handlers, then the filter loop. -/
def query_metrics (r : CliQueryResults) : Except MetricsError CliTable :=
  match query_avg_memory_request_utilization [] r.request_utilization with
  | .error e => .error e
  | .ok st1 =>
  match query_max_memory_usage st1 r.used_bytes_max with
  | .error e => .error e
  | .ok st2 =>
  match query_avg_memory_usage st2 r.used_bytes_mean with
  | .error e => .error e
  | .ok st3 =>
  match query_memory_request st3 r.request_bytes with
  | .error e => .error e
  | .ok st4 => .ok (filter_overprovisioner st4)

/-- The container rows of the CLI report (`print_utilization` before the
`Total` row): the table values sorted descending by `unutilized_memory`. -/
def print_utilization_rows (r : CliQueryResults) :
    Except MetricsError (List ContainerMetrics) :=
  (query_metrics r).map (fun st =>
    (st.map Prod.snd).mergeSort
      (fun a b => decide (b.unutilized_memory ≤ a.unutilized_memory)))

/-- The CLI `UtilizationMonitor.query`'s filter construction: only the
OR-clause over the allow-listed namespaces is appended (no `kube-system`
exclusion appears in this file). -/
def build_query_filter (namespaces : List String) (query_filter : String) : String :=
  if namespaces.isEmpty then query_filter
  else query_filter ++ " AND (" ++ String.intercalate " OR "
    (namespaces.map
      (fun ns => "resource.labels.namespace_name = \"" ++ ns ++ "\"")) ++ ")"

end KubeUtilizationMonitor

namespace MetricsServer

/-- The color tier `termcolor.colored` is called with. -/
inductive Color
  | red
  | yellow
  | green
deriving DecidableEq

/-- The `OutputFormat` enum of the HTTP surface. -/
inductive OutputFormat
  | table
  | json
  | csv
deriving DecidableEq

/-- The `MetricType` enum of the HTTP surface. -/
inductive MetricType
  | memory
  | cpu
deriving DecidableEq

/-- Python's `int(...)` on a number: truncation toward zero. -/
def int_of (q : ℚ) : ℤ :=
  if 0 ≤ q then ⌊q⌋ else ⌈q⌉

/-- `percentage_gradient`: tier of a utilization ratio.  The Python float
literals `0.3` and `0.6` are modelled as the rationals `3/10` and `6/10`. -/
def percentage_gradient (value : ℚ) : Color :=
  if value < 3 / 10 then .red
  else if value < 6 / 10 then .yellow
  else .green

/-- `memory_bytes_gradient`: tier of an unutilized-memory byte count, after
`value_in_mb = int(value / 1024 ** 2)`. -/
def memory_bytes_gradient (value : ℚ) : Color :=
  let value_in_mb := int_of (value / 1024 ^ 2)
  if value_in_mb > 200 then .red
  else if value_in_mb > 100 then .yellow
  else .green

/-- `cpu_gradient`: tier of an unutilized-cpu core count, after
`value_in_milicores = int(value * 1000)`. -/
def cpu_gradient (value : ℚ) : Color :=
  let value_in_milicores := int_of (value * 1000)
  if value_in_milicores > 1000 then .red
  else if value_in_milicores > 100 then .yellow
  else .green

/-- The arithmetic fault the table formatters can raise
(`ZeroDivisionError` from dividing by `len(metrics)`). -/
inductive FormatError
  | zeroDivision
deriving DecidableEq

/-- Python's `/` on numbers: raises `ZeroDivisionError` when the denominator
is zero. -/
def pydiv (a b : ℚ) : Except FormatError ℚ :=
  if b = 0 then .error .zeroDivision else .ok (a / b)

/-- A row of the memory table: a container row keeps the record it renders;
the `Total` row keeps the four aggregate numbers it renders
(request summed, avg usage averaged, utilization averaged, unutilized
summed). -/
inductive MemoryRow
  | container (m : MetricsClient.ContainerMetrics)
  | total (memory_request : ℤ) (avg_memory_usage : ℚ)
      (avg_memory_request_utilization : ℚ) (unutilized_memory : ℤ)
deriving DecidableEq

/-- A row of the cpu table: the rendered `Total` row omits the utilization
column (commented out in the source). -/
inductive CpuRow
  | container (m : MetricsClient.ContainerMetrics)
  | total (cpu_request : ℚ) (avg_cpu_usage : ℚ) (unutilized_cpu : ℚ)
deriving DecidableEq

/-- The sort key a memory row was ordered by. -/
def memoryRowUnutilized : MemoryRow → ℤ
  | .container m => m.unutilized_memory
  | .total _ _ _ u => u

/-- The sort key a cpu row was ordered by. -/
def cpuRowUnutilized : CpuRow → ℚ
  | .container m => m.unutilized_cpu
  | .total _ _ u => u

/-- `format_memory_metrics_as_table`: sort descending by `unutilized_memory`
(`list.sort(key=..., reverse=True)` is a stable descending sort), build one
row per record, compute the totals (the two means divide by `len(metrics)`),
and append the `Total` row. -/
def format_memory_metrics_as_table (metrics : List MetricsClient.ContainerMetrics) :
    Except FormatError (List MemoryRow) :=
  let sorted := metrics.mergeSort
    (fun a b => decide (b.unutilized_memory ≤ a.unutilized_memory))
  let rows := sorted.map MemoryRow.container
  match pydiv ((sorted.map
      (fun m => m.avg_memory_request_utilization)).sum) (sorted.length : ℚ) with
  | .error e => .error e
  | .ok total_avg_memory_request_utilization =>
  match pydiv ((sorted.map
      (fun m => m.avg_memory_usage)).sum) (sorted.length : ℚ) with
  | .error e => .error e
  | .ok total_avg_memory_usage =>
  let total_avg_memory_request := (sorted.map (fun m => m.memory_request)).sum
  let total_unutilized_memory := (sorted.map (fun m => m.unutilized_memory)).sum
  .ok (rows ++ [MemoryRow.total total_avg_memory_request total_avg_memory_usage
    total_avg_memory_request_utilization total_unutilized_memory])

/-- `format_cpu_metrics_as_table`: sort descending by `unutilized_cpu`, build
rows, compute totals (the utilization mean is computed - and can raise - even
though its column is commented out of the `Total` row), append `Total`. -/
def format_cpu_metrics_as_table (metrics : List MetricsClient.ContainerMetrics) :
    Except FormatError (List CpuRow) :=
  let sorted := metrics.mergeSort
    (fun a b => decide (b.unutilized_cpu ≤ a.unutilized_cpu))
  let rows := sorted.map CpuRow.container
  match pydiv ((sorted.map
      (fun m => m.avg_cpu_request_utilization)).sum) (sorted.length : ℚ) with
  | .error e => .error e
  | .ok _total_avg_cpu_request_utilization =>
  match pydiv ((sorted.map
      (fun m => m.avg_cpu_usage)).sum) (sorted.length : ℚ) with
  | .error e => .error e
  | .ok total_avg_cpu_usage =>
  let total_avg_cpu_request := (sorted.map (fun m => m.cpu_request)).sum
  let total_unutilized_cpu := (sorted.map (fun m => m.unutilized_cpu)).sum
  .ok (rows ++ [CpuRow.total total_avg_cpu_request total_avg_cpu_usage
    total_unutilized_cpu])

/-- What `format_metrics` hands back to FastAPI: a rendered table response,
the raw record list (serialized as JSON), or - for `csv` - nothing at all
(the Python function falls off its end and returns `None`). -/
inductive FormatResult
  | memory_table (rows : List MemoryRow)
  | cpu_table (rows : List CpuRow)
  | json (metrics : List MetricsClient.ContainerMetrics)
deriving DecidableEq

/-- `format_metrics`: dispatch on output format and metric type. -/
def format_metrics (metric_type : MetricType) (output_format : OutputFormat)
    (metrics : List MetricsClient.ContainerMetrics) :
    Except FormatError (Option FormatResult) :=
  match output_format with
  | .table =>
    match metric_type with
    | .memory => (format_memory_metrics_as_table metrics).map
        (fun rows => some (.memory_table rows))
    | .cpu => (format_cpu_metrics_as_table metrics).map
        (fun rows => some (.cpu_table rows))
  | .json => .ok (some (.json metrics))
  | .csv => .ok none

end MetricsServer

/-! Helper lemmas about the keyed-table operations and the handler loop. -/

theorem mem_upsert_container {γ : Type} (new : TimeSeries → γ) (st : KeyedTable γ)
    (ts : TimeSeries) (k : ContainerKey) (m : γ)
    (h : (k, m) ∈ upsert_container new st ts) :
    (k, m) ∈ st ∨ (k = container_key ts ∧ m = new ts) := by
  unfold upsert_container at h
  cases hf : find_container st (container_key ts) with
  | some m0 => rw [hf] at h; exact Or.inl h
  | none =>
    rw [hf] at h
    rcases List.mem_append.mp h with h1 | h1
    · exact Or.inl h1
    · rcases List.mem_singleton.mp h1 with h2
      rw [Prod.mk.injEq] at h2
      exact Or.inr h2

theorem mem_upsert_of_key_ne {γ : Type} (new : TimeSeries → γ) (st : KeyedTable γ)
    (ts : TimeSeries) (k : ContainerKey) (m : γ) (hne : k ≠ container_key ts) :
    ((k, m) ∈ upsert_container new st ts ↔ (k, m) ∈ st) := by
  unfold upsert_container
  cases hf : find_container st (container_key ts) with
  | some m0 => exact Iff.rfl
  | none =>
    constructor
    · intro h
      rcases List.mem_append.mp h with h1 | h1
      · exact h1
      · rcases List.mem_singleton.mp h1 with h2
        rw [Prod.mk.injEq] at h2
        exact absurd h2.1 hne
    · intro h
      exact List.mem_append.mpr (Or.inl h)

theorem mem_update_entry {γ : Type} (st : KeyedTable γ) (key : ContainerKey)
    (f : γ → γ) (k : ContainerKey) (m : γ)
    (h : (k, m) ∈ update_entry st key f) :
    (k, m) ∈ st ∨ ∃ m0, (k, m0) ∈ st ∧ m = f m0 := by
  unfold update_entry at h
  rcases List.mem_map.mp h with ⟨e, he, hem⟩
  by_cases hk : e.1 = key
  · rw [if_pos hk] at hem
    rw [Prod.mk.injEq] at hem
    refine Or.inr ⟨e.2, ?_, hem.2.symm⟩
    rw [← hem.1]
    exact he
  · rw [if_neg hk] at hem
    rw [hem] at he
    exact Or.inl he

theorem mem_update_entry_of_key_ne {γ : Type} (st : KeyedTable γ)
    (key : ContainerKey) (f : γ → γ) (k : ContainerKey) (m : γ)
    (hne : k ≠ key) :
    ((k, m) ∈ update_entry st key f ↔ (k, m) ∈ st) := by
  unfold update_entry
  constructor
  · intro h
    rcases List.mem_map.mp h with ⟨e, he, hem⟩
    by_cases hk : e.1 = key
    · rw [if_pos hk] at hem
      rw [Prod.mk.injEq] at hem
      rw [← hem.1] at hne
      exact absurd hk hne
    · rw [if_neg hk] at hem
      rw [hem] at he
      exact he
  · intro h
    refine List.mem_map.mpr ⟨(k, m), h, ?_⟩
    rw [if_neg ?_]
    intro hk
    exact hne hk

/-- Every record in the table after a handler run satisfies `P`, provided the
fresh records do, the handler's write preserves `P` for the values it
extracts, and the starting table satisfies `P`. -/
theorem run_handler_invariant {γ α : Type} {new : TimeSeries → γ}
    {extract : List Point → Except MetricsError α} {write : α → γ → γ}
    {P : γ → Prop} (hnew : ∀ ts, P (new ts)) :
    ∀ (l : List TimeSeries),
    (∀ ts ∈ l, ∀ a, extract ts.points = Except.ok a → ∀ m, P m → P (write a m)) →
    ∀ (st st' : KeyedTable γ), run_handler new extract write st l = .ok st' →
    (∀ k m, (k, m) ∈ st → P m) → ∀ k m, (k, m) ∈ st' → P m := by
  intro l
  induction l with
  | nil =>
    intro _ st st' hrun hst
    simp only [run_handler, Except.ok.injEq] at hrun
    rw [← hrun]
    exact hst
  | cons ts rest ih =>
    intro hw st st' hrun hst
    simp only [run_handler] at hrun
    cases hex : extract ts.points with
    | error e => rw [hex] at hrun; exact absurd hrun (by simp)
    | ok v =>
      rw [hex] at hrun
      refine ih (fun ts2 h2 => hw ts2 (List.mem_cons_of_mem _ h2)) _ st' hrun ?_
      intro k m hm
      rcases mem_update_entry _ _ _ _ _ hm with h1 | ⟨m0, hm0, hfm⟩
      · rcases mem_upsert_container _ _ _ _ _ h1 with h2 | ⟨_, hm2⟩
        · exact hst _ _ h2
        · rw [hm2]; exact hnew ts
      · rw [hfm]
        rcases mem_upsert_container _ _ _ _ _ hm0 with h2 | ⟨_, hm2⟩
        · exact hw ts (List.mem_cons_self _ _) v hex _ (hst _ _ h2)
        · rw [hm2]; exact hw ts (List.mem_cons_self _ _) v hex _ (hnew ts)

/-- A handler run neither creates, deletes, nor modifies entries whose key is
not among the processed series' keys. -/
theorem run_handler_untouched_key {γ α : Type} {new : TimeSeries → γ}
    {extract : List Point → Except MetricsError α} {write : α → γ → γ} :
    ∀ (l : List TimeSeries) (k : ContainerKey), k ∉ l.map container_key →
    ∀ (st st' : KeyedTable γ), run_handler new extract write st l = .ok st' →
    ∀ m, ((k, m) ∈ st' ↔ (k, m) ∈ st) := by
  intro l
  induction l with
  | nil =>
    intro k _ st st' hrun m
    simp only [run_handler, Except.ok.injEq] at hrun
    rw [hrun]
  | cons ts rest ih =>
    intro k hk st st' hrun m
    have hk1 : k ≠ container_key ts := by
      intro h
      apply hk
      rw [List.map_cons, h]
      exact List.mem_cons_self _ _
    have hk2 : k ∉ rest.map container_key := by
      intro h
      apply hk
      rw [List.map_cons]
      exact List.mem_cons_of_mem _ h
    simp only [run_handler] at hrun
    cases hex : extract ts.points with
    | error e => rw [hex] at hrun; exact absurd hrun (by simp)
    | ok v =>
      rw [hex] at hrun
      rw [ih k hk2 _ st' hrun m,
          mem_update_entry_of_key_ne _ _ _ _ _ hk1,
          mem_upsert_of_key_ne _ _ _ _ _ hk1]

/-- A handler run aborts with an error when some processed series has an
empty points list and the extractor fails on empty input. -/
theorem run_handler_error_of_empty {γ α : Type} {new : TimeSeries → γ}
    {extract : List Point → Except MetricsError α} {write : α → γ → γ}
    {e0 : MetricsError} (hex0 : extract [] = .error e0) :
    ∀ (l : List TimeSeries) (ts : TimeSeries), ts ∈ l → ts.points = [] →
    ∀ (st : KeyedTable γ), ∃ e,
      run_handler new extract write st l = .error e := by
  intro l
  induction l with
  | nil => intro ts h; exact absurd h (List.not_mem_nil ts)
  | cons hd rest ih =>
    intro ts hmem hpts st
    rcases List.mem_cons.mp hmem with h1 | h1
    · refine ⟨e0, ?_⟩
      simp only [run_handler]
      rw [← h1, hpts, hex0]
    · simp only [run_handler]
      cases hex : extract hd.points with
      | error e => exact ⟨e, rfl⟩
      | ok v => exact ih ts h1 hpts _

/-- A handler whose write leaves the field `g` unchanged can only produce
entries whose `g`-value was already in the starting table or is the fresh
record's value `z`. -/
theorem run_handler_field_trace {γ α β : Type} {new : TimeSeries → γ}
    {extract : List Point → Except MetricsError α} {write : α → γ → γ}
    (g : γ → β) (z : β) (hgw : ∀ a m, g (write a m) = g m)
    (hgnew : ∀ ts, g (new ts) = z) :
    ∀ (l : List TimeSeries) (st st' : KeyedTable γ) (k : ContainerKey) (m' : γ),
    run_handler new extract write st l = .ok st' → (k, m') ∈ st' →
    (∃ m, (k, m) ∈ st ∧ g m' = g m) ∨ g m' = z := by
  intro l
  induction l with
  | nil =>
    intro st st' k m' hrun hm
    simp only [run_handler, Except.ok.injEq] at hrun
    rw [← hrun] at hm
    exact Or.inl ⟨m', hm, rfl⟩
  | cons ts rest ih =>
    intro st st' k m' hrun hm
    simp only [run_handler] at hrun
    cases hex : extract ts.points with
    | error e => rw [hex] at hrun; exact absurd hrun (by simp)
    | ok v =>
      rw [hex] at hrun
      rcases ih _ st' k m' hrun hm with ⟨m1, hm1, hg1⟩ | hz
      · rcases mem_update_entry _ _ _ _ _ hm1 with h5 | ⟨m2, hm2, hw2⟩
        · rcases mem_upsert_container _ _ _ _ _ h5 with h6 | ⟨_, hn⟩
          · exact Or.inl ⟨m1, h6, hg1⟩
          · refine Or.inr ?_
            rw [hg1, hn, hgnew]
        · rcases mem_upsert_container _ _ _ _ _ hm2 with h6 | ⟨_, hn⟩
          · refine Or.inl ⟨m2, h6, ?_⟩
            rw [hg1, hw2, hgw]
          · refine Or.inr ?_
            rw [hg1, hw2, hgw, hn, hgnew]
      · exact Or.inr hz

theorem foldl_max_le_init {β : Type} [LinearOrder β] :
    ∀ (l : List β) (a : β), a ≤ l.foldl max a := by
  intro l
  induction l with
  | nil => intro a; exact le_refl a
  | cons x xs ih => intro a; exact le_trans (le_max_left a x) (ih (max a x))

theorem le_foldl_max_of_mem {β : Type} [LinearOrder β] :
    ∀ (l : List β) (a x : β), x ∈ l → x ≤ l.foldl max a := by
  intro l
  induction l with
  | nil => intro a x h; exact absurd h (List.not_mem_nil x)
  | cons y ys ih =>
    intro a x h
    rcases List.mem_cons.mp h with h1 | h1
    · rw [List.foldl_cons, h1]
      exact le_trans (le_max_right a y) (foldl_max_le_init ys (max a y))
    · rw [List.foldl_cons]
      exact ih (max a y) x h1

theorem foldl_max_mem {β : Type} [LinearOrder β] :
    ∀ (l : List β) (a : β), l.foldl max a = a ∨ l.foldl max a ∈ l := by
  intro l
  induction l with
  | nil => intro a; exact Or.inl rfl
  | cons y ys ih =>
    intro a
    rw [List.foldl_cons]
    rcases ih (max a y) with h | h
    · rw [h]
      rcases le_total a y with hle | hle
      · right
        rw [max_eq_right hle]
        exact List.mem_cons_self _ _
      · left
        exact max_eq_left hle
    · right
      exact List.mem_cons_of_mem _ h

namespace MetricsClient

theorem mem_finalize_memory :
    ∀ (st : MetricsTable) (k : ContainerKey) (m' : ContainerMetrics),
    (k, m') ∈ finalize_memory st →
    ∃ m, (k, m) ∈ st ∧ pyin "overprovisioner" m.container_name = false ∧
      m' = { m with
        unutilized_memory := max 0 (m.memory_request - m.max_memory_usage) } := by
  intro st
  induction st with
  | nil => intro k m' h; exact absurd h (List.not_mem_nil _)
  | cons e rest ih =>
    intro k m' h
    cases e with
    | mk k0 m0 =>
      simp only [finalize_memory] at h
      by_cases hov : pyin "overprovisioner" m0.container_name = true
      · rw [if_pos hov] at h
        rcases ih k m' h with ⟨m, hm, hov2, hm'⟩
        exact ⟨m, List.mem_cons_of_mem _ hm, hov2, hm'⟩
      · rw [if_neg hov] at h
        rw [Bool.not_eq_true] at hov
        rcases List.mem_cons.mp h with h1 | h1
        · rw [Prod.mk.injEq] at h1
          obtain ⟨hk, hm'⟩ := h1
          subst hk
          exact ⟨m0, List.mem_cons_self _ _, hov, hm'⟩
        · rcases ih k m' h1 with ⟨m, hm, hov2, hm'⟩
          exact ⟨m, List.mem_cons_of_mem _ hm, hov2, hm'⟩

theorem mem_finalize_cpu :
    ∀ (st : MetricsTable) (k : ContainerKey) (m' : ContainerMetrics),
    (k, m') ∈ finalize_cpu st →
    ∃ m, (k, m) ∈ st ∧ pyin "overprovisioner" m.container_name = false ∧
      m' = { m with
        unutilized_cpu := max 0 (m.cpu_request - m.max_cpu_usage) } := by
  intro st
  induction st with
  | nil => intro k m' h; exact absurd h (List.not_mem_nil _)
  | cons e rest ih =>
    intro k m' h
    cases e with
    | mk k0 m0 =>
      simp only [finalize_cpu] at h
      by_cases hov : pyin "overprovisioner" m0.container_name = true
      · rw [if_pos hov] at h
        rcases ih k m' h with ⟨m, hm, hov2, hm'⟩
        exact ⟨m, List.mem_cons_of_mem _ hm, hov2, hm'⟩
      · rw [if_neg hov] at h
        rw [Bool.not_eq_true] at hov
        rcases List.mem_cons.mp h with h1 | h1
        · rw [Prod.mk.injEq] at h1
          obtain ⟨hk, hm'⟩ := h1
          subst hk
          exact ⟨m0, List.mem_cons_self _ _, hov, hm'⟩
        · rcases ih k m' h1 with ⟨m, hm, hov2, hm'⟩
          exact ⟨m, List.mem_cons_of_mem _ hm, hov2, hm'⟩

theorem memory_entries_decomp (r : MemoryQueryResults) (st' : MetricsTable)
    (h : query_memory_utilization_entries r = .ok st') :
    ∃ st1 st2 st3 st4,
      query_avg_memory_request_utilization [] r.request_utilization = .ok st1 ∧
      query_max_memory_usage st1 r.used_bytes_max = .ok st2 ∧
      query_avg_memory_usage st2 r.used_bytes_mean = .ok st3 ∧
      query_memory_request st3 r.request_bytes = .ok st4 ∧
      st' = finalize_memory st4 := by
  unfold query_memory_utilization_entries at h
  split at h
  · exact absurd h (by simp)
  next st1 h1 =>
  split at h
  · exact absurd h (by simp)
  next st2 h2 =>
  split at h
  · exact absurd h (by simp)
  next st3 h3 =>
  split at h
  · exact absurd h (by simp)
  next st4 h4 =>
  simp only [Except.ok.injEq] at h
  exact ⟨st1, st2, st3, st4, h1, h2, h3, h4, h.symm⟩

theorem cpu_entries_decomp (r : CpuQueryResults) (st' : MetricsTable)
    (h : query_cpu_utilization_entries r = .ok st') :
    ∃ st1 st2 st3 st4,
      query_avg_cpu_request_utilization [] r.request_utilization = .ok st1 ∧
      query_max_cpu_usage st1 r.core_usage_time_max = .ok st2 ∧
      query_avg_cpu_usage st2 r.core_usage_time_mean = .ok st3 ∧
      query_cpu_request st3 r.request_cores = .ok st4 ∧
      st' = finalize_cpu st4 := by
  unfold query_cpu_utilization_entries at h
  split at h
  · exact absurd h (by simp)
  next st1 h1 =>
  split at h
  · exact absurd h (by simp)
  next st2 h2 =>
  split at h
  · exact absurd h (by simp)
  next st3 h3 =>
  split at h
  · exact absurd h (by simp)
  next st4 h4 =>
  simp only [Except.ok.injEq] at h
  exact ⟨st1, st2, st3, st4, h1, h2, h3, h4, h.symm⟩

end MetricsClient

namespace KubeUtilizationMonitor

theorem mem_filter_overprovisioner :
    ∀ (st : CliTable) (k : ContainerKey) (m : ContainerMetrics),
    (k, m) ∈ filter_overprovisioner st →
    (k, m) ∈ st ∧ pyin "overprovisioner" m.container_name = false := by
  intro st
  induction st with
  | nil => intro k m h; exact absurd h (List.not_mem_nil _)
  | cons e rest ih =>
    intro k m h
    cases e with
    | mk k0 m0 =>
      simp only [filter_overprovisioner] at h
      by_cases hov : pyin "overprovisioner" m0.container_name = true
      · rw [if_pos hov] at h
        rcases ih k m h with ⟨hm, hov2⟩
        exact ⟨List.mem_cons_of_mem _ hm, hov2⟩
      · rw [if_neg hov] at h
        rw [Bool.not_eq_true] at hov
        rcases List.mem_cons.mp h with h1 | h1
        · rw [Prod.mk.injEq] at h1
          obtain ⟨hk, hm⟩ := h1
          subst hk
          subst hm
          exact ⟨List.mem_cons_self _ _, hov⟩
        · rcases ih k m h1 with ⟨hm, hov2⟩
          exact ⟨List.mem_cons_of_mem _ hm, hov2⟩

theorem query_metrics_decomp (r : CliQueryResults) (st' : CliTable)
    (h : query_metrics r = .ok st') :
    ∃ st4, st' = filter_overprovisioner st4 := by
  unfold query_metrics at h
  split at h
  · exact absurd h (by simp)
  next st1 h1 =>
  split at h
  · exact absurd h (by simp)
  next st2 h2 =>
  split at h
  · exact absurd h (by simp)
  next st3 h3 =>
  split at h
  · exact absurd h (by simp)
  next st4 h4 =>
  simp only [Except.ok.injEq] at h
  exact ⟨st4, h.symm⟩

end KubeUtilizationMonitor

/-! Claim theorems. -/

/-- Claim C1: every record produced by an aggregation call satisfies
`unutilized_memory = max(0, memory_request - max_memory_usage)` (for
`query_memory_utilization`) and `unutilized_cpu = max(0, cpu_request -
max_cpu_usage)` (for `query_cpu_utilization`), and the CLI dataclass's
`unutilized_memory` property equals the same clamped difference; both derived
values are never negative, for all field values. -/
theorem unutilized_fields_clamped :
    (∀ (r : MetricsClient.MemoryQueryResults)
        (l : List MetricsClient.ContainerMetrics),
      MetricsClient.query_memory_utilization r = .ok l →
      ∀ m ∈ l,
        m.unutilized_memory = max 0 (m.memory_request - m.max_memory_usage) ∧
        0 ≤ m.unutilized_memory) ∧
    (∀ (r : MetricsClient.CpuQueryResults)
        (l : List MetricsClient.ContainerMetrics),
      MetricsClient.query_cpu_utilization r = .ok l →
      ∀ m ∈ l,
        m.unutilized_cpu = max 0 (m.cpu_request - m.max_cpu_usage) ∧
        0 ≤ m.unutilized_cpu) ∧
    (∀ m : KubeUtilizationMonitor.ContainerMetrics,
      m.unutilized_memory = max 0 (m.memory_request - m.max_memory_usage) ∧
        0 ≤ m.unutilized_memory) := by
  refine ⟨?_, ?_, ?_⟩
  · intro r l hok m hm
    unfold MetricsClient.query_memory_utilization at hok
    cases he : MetricsClient.query_memory_utilization_entries r with
    | error e => rw [he] at hok; exact absurd hok (by simp [Except.map])
    | ok st' =>
      rw [he] at hok
      simp only [Except.map, Except.ok.injEq] at hok
      rw [← hok] at hm
      rcases List.mem_map.mp hm with ⟨e, hest, hem⟩
      rcases MetricsClient.memory_entries_decomp r st' he with
        ⟨st1, st2, st3, st4, _, _, _, _, hfin⟩
      rw [hfin] at hest
      rcases MetricsClient.mem_finalize_memory st4 e.1 e.2 hest with
        ⟨m0, _, _, hm'⟩
      rw [← hem, hm']
      exact ⟨rfl, le_max_left 0 _⟩
  · intro r l hok m hm
    unfold MetricsClient.query_cpu_utilization at hok
    cases he : MetricsClient.query_cpu_utilization_entries r with
    | error e => rw [he] at hok; exact absurd hok (by simp [Except.map])
    | ok st' =>
      rw [he] at hok
      simp only [Except.map, Except.ok.injEq] at hok
      rw [← hok] at hm
      rcases List.mem_map.mp hm with ⟨e, hest, hem⟩
      rcases MetricsClient.cpu_entries_decomp r st' he with
        ⟨st1, st2, st3, st4, _, _, _, _, hfin⟩
      rw [hfin] at hest
      rcases MetricsClient.mem_finalize_cpu st4 e.1 e.2 hest with
        ⟨m0, _, _, hm'⟩
      rw [← hem, hm']
      exact ⟨rfl, le_max_left 0 _⟩
  · intro m
    exact ⟨rfl, le_max_left 0 _⟩

/-- Concrete backend answers used to witness claim C1: a single series for
the memory `request_bytes` query. -/
def c1_memory_results : MetricsClient.MemoryQueryResults :=
  { request_utilization := []
    used_bytes_max := []
    used_bytes_mean := []
    request_bytes := [⟨"prod", "web", "web-deploy", [⟨⟨5, 5⟩⟩]⟩] }

/-- The record the aggregation call of `c1_memory_results` produces. -/
def c1_record : MetricsClient.ContainerMetrics :=
  { container_name := "web"
    top_level_controller_name := "web-deploy"
    namespace_name := "prod"
    memory_request := 5
    unutilized_memory := 5 }

/-- Witness for claim C1 at a concrete aggregation call. -/
theorem unutilized_fields_clamped_witness :
    c1_record.unutilized_memory =
      max 0 (c1_record.memory_request - c1_record.max_memory_usage) ∧
    0 ≤ c1_record.unutilized_memory :=
  unutilized_fields_clamped.1 c1_memory_results [c1_record] (by rfl)
    c1_record (by decide)

/-- Claim C3: no container whose name contains the substring
`"overprovisioner"` ever appears in the output of
`query_memory_utilization`, `query_cpu_utilization`, or the CLI report's
container rows, for all inputs. -/
theorem overprovisioner_rows_dropped :
    (∀ (r : MetricsClient.MemoryQueryResults)
        (l : List MetricsClient.ContainerMetrics),
      MetricsClient.query_memory_utilization r = .ok l →
      ∀ m ∈ l, pyin "overprovisioner" m.container_name = false) ∧
    (∀ (r : MetricsClient.CpuQueryResults)
        (l : List MetricsClient.ContainerMetrics),
      MetricsClient.query_cpu_utilization r = .ok l →
      ∀ m ∈ l, pyin "overprovisioner" m.container_name = false) ∧
    (∀ (r : KubeUtilizationMonitor.CliQueryResults)
        (l : List KubeUtilizationMonitor.ContainerMetrics),
      KubeUtilizationMonitor.print_utilization_rows r = .ok l →
      ∀ m ∈ l, pyin "overprovisioner" m.container_name = false) := by
  refine ⟨?_, ?_, ?_⟩
  · intro r l hok m hm
    unfold MetricsClient.query_memory_utilization at hok
    cases he : MetricsClient.query_memory_utilization_entries r with
    | error e => rw [he] at hok; exact absurd hok (by simp [Except.map])
    | ok st' =>
      rw [he] at hok
      simp only [Except.map, Except.ok.injEq] at hok
      rw [← hok] at hm
      rcases List.mem_map.mp hm with ⟨e, hest, hem⟩
      rcases MetricsClient.memory_entries_decomp r st' he with
        ⟨st1, st2, st3, st4, _, _, _, _, hfin⟩
      rw [hfin] at hest
      rcases MetricsClient.mem_finalize_memory st4 e.1 e.2 hest with
        ⟨m0, _, hov, hm'⟩
      rw [← hem, hm']
      exact hov
  · intro r l hok m hm
    unfold MetricsClient.query_cpu_utilization at hok
    cases he : MetricsClient.query_cpu_utilization_entries r with
    | error e => rw [he] at hok; exact absurd hok (by simp [Except.map])
    | ok st' =>
      rw [he] at hok
      simp only [Except.map, Except.ok.injEq] at hok
      rw [← hok] at hm
      rcases List.mem_map.mp hm with ⟨e, hest, hem⟩
      rcases MetricsClient.cpu_entries_decomp r st' he with
        ⟨st1, st2, st3, st4, _, _, _, _, hfin⟩
      rw [hfin] at hest
      rcases MetricsClient.mem_finalize_cpu st4 e.1 e.2 hest with
        ⟨m0, _, hov, hm'⟩
      rw [← hem, hm']
      exact hov
  · intro r l hok m hm
    unfold KubeUtilizationMonitor.print_utilization_rows at hok
    cases he : KubeUtilizationMonitor.query_metrics r with
    | error e => rw [he] at hok; exact absurd hok (by simp [Except.map])
    | ok st' =>
      rw [he] at hok
      simp only [Except.map, Except.ok.injEq] at hok
      rw [← hok] at hm
      rw [List.mem_mergeSort] at hm
      rcases List.mem_map.mp hm with ⟨e, hest, hem⟩
      rcases KubeUtilizationMonitor.query_metrics_decomp r st' he with ⟨st4, hfin⟩
      rw [hfin] at hest
      rcases KubeUtilizationMonitor.mem_filter_overprovisioner st4 e.1 e.2 hest with
        ⟨_, hov⟩
      rw [← hem]
      exact hov

/-- Concrete backend answers used to witness claim C3: the memory
`request_bytes` query returns one ordinary container and one
overprovisioner sidecar. -/
def c3_memory_results : MetricsClient.MemoryQueryResults :=
  { request_utilization := []
    used_bytes_max := []
    used_bytes_mean := []
    request_bytes :=
      [⟨"prod", "api", "api-deploy", [⟨⟨3, 3⟩⟩]⟩,
       ⟨"prod", "kube-overprovisioner-abc", "op-deploy", [⟨⟨9, 9⟩⟩]⟩] }

/-- The only record surviving the aggregation of `c3_memory_results`. -/
def c3_record : MetricsClient.ContainerMetrics :=
  { container_name := "api"
    top_level_controller_name := "api-deploy"
    namespace_name := "prod"
    memory_request := 3
    unutilized_memory := 3 }

/-- Witness for claim C3: at the concrete call, the surviving row's name has
no "overprovisioner" substring (the sidecar row was dropped). -/
theorem overprovisioner_rows_dropped_witness :
    pyin "overprovisioner" c3_record.container_name = false :=
  overprovisioner_rows_dropped.1 c3_memory_results [c3_record] (by rfl)
    c3_record (by decide)

/-- Counterexample for claim C2: the CLI `UtilizationMonitor.query` builds
its backend filter for the allow-list `["ns-a", "ns-b"]` with no
`kube-system` exclusion anywhere in it, contradicting the claim that both
clients combine the metric type with an exclusion of the `kube-system`
namespace. -/
theorem cli_filter_lacks_kube_system_exclusion :
    pyin "kube-system"
      (KubeUtilizationMonitor.build_query_filter ["ns-a", "ns-b"]
        "metric.type = \"kubernetes.io/container/memory/used_bytes\"") = false := by
  rfl

/-- Claim C2 (amended): the server `MetricsClient.query` appends the
`kube-system` exclusion and then, for a non-empty allow-list, the OR-clause
over exactly the listed namespaces; the CLI `UtilizationMonitor.query`
appends only the OR-clause (no `kube-system` exclusion).  The final two
conjuncts instantiate the spec's `["ns-a", "ns-b"]` example. -/
theorem query_filter_construction :
    ∀ (qf n : String) (ns : List String),
    (MetricsClient.build_query_filter (n :: ns) qf =
      qf ++ " AND resource.labels.namespace_name != \"kube-system\"" ++
        " AND (" ++ String.intercalate " OR " ((n :: ns).map
          (fun s => "resource.labels.namespace_name = \"" ++ s ++ "\"")) ++
        ")") ∧
    (KubeUtilizationMonitor.build_query_filter (n :: ns) qf =
      qf ++ " AND (" ++ String.intercalate " OR " ((n :: ns).map
          (fun s => "resource.labels.namespace_name = \"" ++ s ++ "\"")) ++
        ")") ∧
    (MetricsClient.build_query_filter [] qf =
      qf ++ " AND resource.labels.namespace_name != \"kube-system\"") ∧
    (KubeUtilizationMonitor.build_query_filter [] qf = qf) ∧
    (MetricsClient.build_query_filter ["ns-a", "ns-b"] qf =
      qf ++ " AND resource.labels.namespace_name != \"kube-system\"" ++
        " AND (resource.labels.namespace_name = \"ns-a\" OR " ++
        "resource.labels.namespace_name = \"ns-b\")") ∧
    (KubeUtilizationMonitor.build_query_filter ["ns-a", "ns-b"] qf =
      qf ++ " AND (resource.labels.namespace_name = \"ns-a\" OR " ++
        "resource.labels.namespace_name = \"ns-b\")") := by
  intro qf n ns
  refine ⟨?_, ?_, rfl, rfl, ?_, ?_⟩
  · unfold MetricsClient.build_query_filter
    rw [if_neg (by simp)]
  · unfold KubeUtilizationMonitor.build_query_filter
    rw [if_neg (by simp)]
  · unfold MetricsClient.build_query_filter
    rw [if_neg (by simp)]
    simp [String.intercalate, String.intercalate.go, String.append_assoc]
  · unfold KubeUtilizationMonitor.build_query_filter
    rw [if_neg (by simp)]
    simp [String.intercalate, String.intercalate.go, String.append_assoc]

/-- Claim C6 (code bug): on an empty metrics list both table formatters hit
the division by `len(metrics) = 0` while computing the totals, raising the
arithmetic fault instead of an explicit "no data" error. -/
theorem empty_metrics_table_divides_by_zero :
    MetricsServer.format_memory_metrics_as_table [] = .error .zeroDivision ∧
    MetricsServer.format_cpu_metrics_as_table [] = .error .zeroDivision := by
  constructor
  · simp [MetricsServer.format_memory_metrics_as_table, MetricsServer.pydiv]
  · simp [MetricsServer.format_cpu_metrics_as_table, MetricsServer.pydiv]

/-- Claim C8 (code bug): `format_metrics` with `output_format = csv` falls
off the end of the Python function and silently answers nothing (`None`)
for every metric type and metrics list, instead of failing with an explicit
"unsupported format" error. -/
theorem csv_format_returns_nothing :
    ∀ (mt : MetricsServer.MetricType)
      (ms : List MetricsClient.ContainerMetrics),
      MetricsServer.format_metrics mt .csv ms = .ok none := by
  intro mt ms
  rfl

/-- Python's truncation exceeds an integer bound `c ≥ 0` exactly when the
argument reaches `c + 1`. -/
theorem int_of_gt_iff (v : ℚ) (c : ℤ) (hc : 0 ≤ c) :
    c < MetricsServer.int_of v ↔ (c : ℚ) + 1 ≤ v := by
  unfold MetricsServer.int_of
  by_cases hv : 0 ≤ v
  · rw [if_pos hv, Int.lt_iff_add_one_le, Int.le_floor]
    push_cast
    rfl
  · rw [if_neg hv]
    push_neg at hv
    constructor
    · intro h
      exfalso
      have hle : ⌈v⌉ ≤ 0 := Int.ceil_le.mpr (by exact_mod_cast hv.le)
      omega
    · intro h
      exfalso
      have h0 : (0 : ℚ) ≤ (c : ℚ) := by exact_mod_cast hc
      linarith

theorem percentage_gradient_char (v : ℚ) :
    (MetricsServer.percentage_gradient v = .red ↔ v < 3 / 10) ∧
    (MetricsServer.percentage_gradient v = .yellow ↔ 3 / 10 ≤ v ∧ v < 6 / 10) ∧
    (MetricsServer.percentage_gradient v = .green ↔ 6 / 10 ≤ v) := by
  unfold MetricsServer.percentage_gradient
  by_cases h1 : v < 3 / 10
  · rw [if_pos h1]
    refine ⟨iff_of_true rfl h1, ?_, ?_⟩
    · exact iff_of_false (by simp) (fun h => absurd h1 (not_lt.mpr h.1))
    · exact iff_of_false (by simp) (fun h => absurd h1 (not_lt.mpr (by linarith)))
  · rw [if_neg h1]
    by_cases h2 : v < 6 / 10
    · rw [if_pos h2]
      refine ⟨iff_of_false (by simp) h1, iff_of_true rfl ⟨not_lt.mp h1, h2⟩, ?_⟩
      · exact iff_of_false (by simp) (not_le.mpr h2)
    · rw [if_neg h2]
      refine ⟨iff_of_false (by simp) (fun h => h1 (by linarith)),
        iff_of_false (by simp) (fun h => absurd h.2 h2),
        iff_of_true rfl (not_lt.mp h2)⟩

theorem memory_bytes_gradient_char (v : ℚ) :
    (MetricsServer.memory_bytes_gradient v = .red ↔ 201 * 1024 ^ 2 ≤ v) ∧
    (MetricsServer.memory_bytes_gradient v = .yellow ↔
      101 * 1024 ^ 2 ≤ v ∧ v < 201 * 1024 ^ 2) ∧
    (MetricsServer.memory_bytes_gradient v = .green ↔ v < 101 * 1024 ^ 2) := by
  have h200 : ((200 : ℤ) < MetricsServer.int_of (v / 1024 ^ 2)) ↔
      201 * 1024 ^ 2 ≤ v := by
    rw [int_of_gt_iff _ 200 (by norm_num),
      le_div_iff₀ (by norm_num : (0 : ℚ) < 1024 ^ 2)]
    norm_num
  have h100 : ((100 : ℤ) < MetricsServer.int_of (v / 1024 ^ 2)) ↔
      101 * 1024 ^ 2 ≤ v := by
    rw [int_of_gt_iff _ 100 (by norm_num),
      le_div_iff₀ (by norm_num : (0 : ℚ) < 1024 ^ 2)]
    norm_num
  simp only [MetricsServer.memory_bytes_gradient, gt_iff_lt]
  by_cases hr : (200 : ℤ) < MetricsServer.int_of (v / 1024 ^ 2)
  · rw [if_pos hr]
    have hv201 := h200.mp hr
    have hv101 : 101 * 1024 ^ 2 ≤ v := le_trans (by norm_num) hv201
    refine ⟨iff_of_true rfl hv201, ?_, ?_⟩
    · exact iff_of_false (by simp) (fun h => absurd h.2 (not_lt.mpr hv201))
    · exact iff_of_false (by simp) (not_lt.mpr hv101)
  · rw [if_neg hr]
    have hv201 : ¬ 201 * 1024 ^ 2 ≤ v := fun h => hr (h200.mpr h)
    by_cases hy : (100 : ℤ) < MetricsServer.int_of (v / 1024 ^ 2)
    · rw [if_pos hy]
      have hv101 := h100.mp hy
      refine ⟨iff_of_false (by simp) hv201,
        iff_of_true rfl ⟨hv101, not_le.mp hv201⟩, ?_⟩
      · exact iff_of_false (by simp) (not_lt.mpr hv101)
    · rw [if_neg hy]
      have hv101 : ¬ 101 * 1024 ^ 2 ≤ v := fun h => hy (h100.mpr h)
      exact ⟨iff_of_false (by simp) hv201,
        iff_of_false (by simp) (fun h => hv101 h.1),
        iff_of_true rfl (not_le.mp hv101)⟩

theorem cpu_gradient_char (v : ℚ) :
    (MetricsServer.cpu_gradient v = .red ↔ 1001 / 1000 ≤ v) ∧
    (MetricsServer.cpu_gradient v = .yellow ↔
      101 / 1000 ≤ v ∧ v < 1001 / 1000) ∧
    (MetricsServer.cpu_gradient v = .green ↔ v < 101 / 1000) := by
  have h1000 : ((1000 : ℤ) < MetricsServer.int_of (v * 1000)) ↔
      1001 / 1000 ≤ v := by
    rw [int_of_gt_iff _ 1000 (by norm_num),
      div_le_iff₀ (by norm_num : (0 : ℚ) < 1000)]
    norm_num
  have h100 : ((100 : ℤ) < MetricsServer.int_of (v * 1000)) ↔
      101 / 1000 ≤ v := by
    rw [int_of_gt_iff _ 100 (by norm_num),
      div_le_iff₀ (by norm_num : (0 : ℚ) < 1000)]
    norm_num
  simp only [MetricsServer.cpu_gradient, gt_iff_lt]
  by_cases hr : (1000 : ℤ) < MetricsServer.int_of (v * 1000)
  · rw [if_pos hr]
    have hv1001 := h1000.mp hr
    have hv101 : 101 / 1000 ≤ v := le_trans (by norm_num) hv1001
    refine ⟨iff_of_true rfl hv1001, ?_, ?_⟩
    · exact iff_of_false (by simp) (fun h => absurd h.2 (not_lt.mpr hv1001))
    · exact iff_of_false (by simp) (not_lt.mpr hv101)
  · rw [if_neg hr]
    have hv1001 : ¬ 1001 / 1000 ≤ v := fun h => hr (h1000.mpr h)
    by_cases hy : (100 : ℤ) < MetricsServer.int_of (v * 1000)
    · rw [if_pos hy]
      have hv101 := h100.mp hy
      refine ⟨iff_of_false (by simp) hv1001,
        iff_of_true rfl ⟨hv101, not_le.mp hv1001⟩, ?_⟩
      · exact iff_of_false (by simp) (not_lt.mpr hv101)
    · rw [if_neg hy]
      have hv101 : ¬ 101 / 1000 ≤ v := fun h => hy (h100.mpr h)
      exact ⟨iff_of_false (by simp) hv1001,
        iff_of_false (by simp) (fun h => hv101 h.1),
        iff_of_true rfl (not_le.mp hv101)⟩

/-- Counterexample for claim C7: `200 MB + 1 byte` is strictly more than
200 MB, yet `memory_bytes_gradient` colors it yellow, not red, because the
code truncates to whole MB before comparing. -/
theorem memory_gradient_boundary_counterexample :
    MetricsServer.memory_bytes_gradient (200 * 1024 ^ 2 + 1) =
      MetricsServer.Color.yellow ∧
    (200 * 1024 ^ 2 : ℚ) < 200 * 1024 ^ 2 + 1 ∧
    MetricsServer.Color.yellow ≠ MetricsServer.Color.red := by
  refine ⟨?_, by norm_num, by decide⟩
  refine (memory_bytes_gradient_char (200 * 1024 ^ 2 + 1)).2.1.mpr ?_
  constructor <;> norm_num

/-- Claim C7 (amended): the tiers are decided on the truncated integer
units.  Utilization ratio: < 0.3 red, < 0.6 yellow, else green (exactly 0.3
is yellow, exactly 0.6 is green).  Unutilized memory is truncated to whole
MB first, so red iff the byte value reaches 201 MB, yellow iff it reaches
101 MB but not 201 MB, else green (exactly 200 MB is yellow, exactly 100 MB
is green, and a value strictly between 200 MB and 201 MB is still yellow).
Unutilized CPU is truncated to whole millicores first, so red iff the value
reaches 1001 millicores, yellow iff it reaches 101 but not 1001, else
green. -/
theorem gradient_tiers (v : ℚ) :
    (MetricsServer.percentage_gradient v = .red ↔ v < 3 / 10) ∧
    (MetricsServer.percentage_gradient v = .yellow ↔ 3 / 10 ≤ v ∧ v < 6 / 10) ∧
    (MetricsServer.percentage_gradient v = .green ↔ 6 / 10 ≤ v) ∧
    (MetricsServer.memory_bytes_gradient v = .red ↔ 201 * 1024 ^ 2 ≤ v) ∧
    (MetricsServer.memory_bytes_gradient v = .yellow ↔
      101 * 1024 ^ 2 ≤ v ∧ v < 201 * 1024 ^ 2) ∧
    (MetricsServer.memory_bytes_gradient v = .green ↔ v < 101 * 1024 ^ 2) ∧
    (MetricsServer.cpu_gradient v = .red ↔ 1001 / 1000 ≤ v) ∧
    (MetricsServer.cpu_gradient v = .yellow ↔
      101 / 1000 ≤ v ∧ v < 1001 / 1000) ∧
    (MetricsServer.cpu_gradient v = .green ↔ v < 101 / 1000) := by
  obtain ⟨p1, p2, p3⟩ := percentage_gradient_char v
  obtain ⟨m1, m2, m3⟩ := memory_bytes_gradient_char v
  obtain ⟨c1, c2, c3⟩ := cpu_gradient_char v
  exact ⟨p1, p2, p3, m1, m2, m3, c1, c2, c3⟩

/-- The comparison `list.sort(key=..., reverse=True)` sorts with is
transitive. -/
theorem desc_le_trans {γ : Type} {β : Type} [LinearOrder β] (key : γ → β) :
    ∀ (a b c : γ), (decide (key b ≤ key a)) → (decide (key c ≤ key b)) →
      (decide (key c ≤ key a)) = true := by
  intro a b c hab hbc
  rw [decide_eq_true_iff] at hab hbc ⊢
  exact le_trans hbc hab

/-- The comparison `list.sort(key=..., reverse=True)` sorts with is total. -/
theorem desc_le_total {γ : Type} {β : Type} [LinearOrder β] (key : γ → β) :
    ∀ (a b : γ),
      ((decide (key b ≤ key a)) || (decide (key a ≤ key b))) = true := by
  intro a b
  rw [Bool.or_eq_true, decide_eq_true_iff, decide_eq_true_iff]
  exact le_total (key b) (key a)

/-- Claim C5: for every metrics list the table formatters accept, the
container rows appear in descending order of the relevant unutilized metric
(`unutilized_memory` for the memory table, `unutilized_cpu` for the cpu
table), and the synthetic `Total` row - request summed, average usage and
utilization averaged, unutilized summed - is the last row. -/
theorem table_sorted_and_total_last :
    (∀ (metrics : List MetricsClient.ContainerMetrics)
        (rows : List MetricsServer.MemoryRow),
      MetricsServer.format_memory_metrics_as_table metrics = .ok rows →
      rows.dropLast.Pairwise (fun a b =>
        MetricsServer.memoryRowUnutilized b ≤
          MetricsServer.memoryRowUnutilized a) ∧
      rows.getLast? = some (MetricsServer.MemoryRow.total
        ((metrics.map (fun m => m.memory_request)).sum)
        ((metrics.map (fun m => m.avg_memory_usage)).sum /
          (metrics.length : ℚ))
        ((metrics.map (fun m => m.avg_memory_request_utilization)).sum /
          (metrics.length : ℚ))
        ((metrics.map (fun m => m.unutilized_memory)).sum))) ∧
    (∀ (metrics : List MetricsClient.ContainerMetrics)
        (rows : List MetricsServer.CpuRow),
      MetricsServer.format_cpu_metrics_as_table metrics = .ok rows →
      rows.dropLast.Pairwise (fun a b =>
        MetricsServer.cpuRowUnutilized b ≤ MetricsServer.cpuRowUnutilized a) ∧
      rows.getLast? = some (MetricsServer.CpuRow.total
        ((metrics.map (fun m => m.cpu_request)).sum)
        ((metrics.map (fun m => m.avg_cpu_usage)).sum / (metrics.length : ℚ))
        ((metrics.map (fun m => m.unutilized_cpu)).sum))) := by
  constructor
  · intro metrics rows hok
    by_cases hnil : metrics = []
    · subst hnil
      exact absurd hok (by simp [MetricsServer.format_memory_metrics_as_table,
        MetricsServer.pydiv])
    · have hperm := List.mergeSort_perm metrics
        (fun a b => decide (b.unutilized_memory ≤ a.unutilized_memory))
      have hlen : ((metrics.mergeSort
          (fun a b => decide (b.unutilized_memory ≤ a.unutilized_memory))).length
            : ℚ) ≠ 0 := by
        rw [hperm.length_eq]
        exact_mod_cast fun h => hnil (List.length_eq_zero.mp (by exact_mod_cast h))
      simp only [MetricsServer.format_memory_metrics_as_table,
        MetricsServer.pydiv, if_neg hlen, Except.ok.injEq] at hok
      rw [← hok]
      constructor
      · rw [List.dropLast_concat, List.pairwise_map]
        have hs := @List.sorted_mergeSort MetricsClient.ContainerMetrics
          (fun a b => decide (b.unutilized_memory ≤ a.unutilized_memory))
          (desc_le_trans (fun m : MetricsClient.ContainerMetrics => m.unutilized_memory))
          (desc_le_total (fun m : MetricsClient.ContainerMetrics => m.unutilized_memory)) metrics
        refine hs.imp ?_
        intro a b hab
        rw [decide_eq_true_iff] at hab
        exact hab
      · rw [List.getLast?_concat]
        have hmap : ∀ (f : MetricsClient.ContainerMetrics → ℚ),
            ((metrics.mergeSort (fun a b =>
              decide (b.unutilized_memory ≤ a.unutilized_memory))).map f).sum =
            (metrics.map f).sum :=
          fun f => (hperm.map f).sum_eq
        have hmapz : ∀ (f : MetricsClient.ContainerMetrics → ℤ),
            ((metrics.mergeSort (fun a b =>
              decide (b.unutilized_memory ≤ a.unutilized_memory))).map f).sum =
            (metrics.map f).sum :=
          fun f => (hperm.map f).sum_eq
        rw [hmap, hmap, hmapz, hmapz, hperm.length_eq]
  · intro metrics rows hok
    by_cases hnil : metrics = []
    · subst hnil
      exact absurd hok (by simp [MetricsServer.format_cpu_metrics_as_table,
        MetricsServer.pydiv])
    · have hperm := List.mergeSort_perm metrics
        (fun a b => decide (b.unutilized_cpu ≤ a.unutilized_cpu))
      have hlen : ((metrics.mergeSort
          (fun a b => decide (b.unutilized_cpu ≤ a.unutilized_cpu))).length
            : ℚ) ≠ 0 := by
        rw [hperm.length_eq]
        exact_mod_cast fun h => hnil (List.length_eq_zero.mp (by exact_mod_cast h))
      simp only [MetricsServer.format_cpu_metrics_as_table,
        MetricsServer.pydiv, if_neg hlen, Except.ok.injEq] at hok
      rw [← hok]
      constructor
      · rw [List.dropLast_concat, List.pairwise_map]
        have hs := @List.sorted_mergeSort MetricsClient.ContainerMetrics
          (fun a b => decide (b.unutilized_cpu ≤ a.unutilized_cpu))
          (desc_le_trans (fun m : MetricsClient.ContainerMetrics => m.unutilized_cpu))
          (desc_le_total (fun m : MetricsClient.ContainerMetrics => m.unutilized_cpu)) metrics
        refine hs.imp ?_
        intro a b hab
        rw [decide_eq_true_iff] at hab
        exact hab
      · rw [List.getLast?_concat]
        have hmap : ∀ (f : MetricsClient.ContainerMetrics → ℚ),
            ((metrics.mergeSort (fun a b =>
              decide (b.unutilized_cpu ≤ a.unutilized_cpu))).map f).sum =
            (metrics.map f).sum :=
          fun f => (hperm.map f).sum_eq
        rw [hmap, hmap, hmap, hperm.length_eq]

/-- First record of the C5 witness table (larger unutilized memory). -/
def c5_m1 : MetricsClient.ContainerMetrics :=
  { container_name := "api"
    top_level_controller_name := "api-deploy"
    namespace_name := "prod"
    memory_request := 10
    avg_memory_usage := 4
    avg_memory_request_utilization := 1 / 2
    max_memory_usage := 2
    unutilized_memory := 8 }

/-- Second record of the C5 witness table (smaller unutilized memory). -/
def c5_m2 : MetricsClient.ContainerMetrics :=
  { container_name := "web"
    top_level_controller_name := "web-deploy"
    namespace_name := "prod"
    memory_request := 3
    avg_memory_usage := 2
    avg_memory_request_utilization := 1 / 4
    max_memory_usage := 1
    unutilized_memory := 2 }

/-- The rows the memory formatter produces for `[c5_m1, c5_m2]`. -/
def c5_rows : List MetricsServer.MemoryRow :=
  [.container c5_m1, .container c5_m2, .total 13 3 (3 / 8) 10]

/-- Witness for claim C5 at a concrete two-row table. -/
theorem table_sorted_and_total_last_witness :
    c5_rows.dropLast.Pairwise (fun a b =>
      MetricsServer.memoryRowUnutilized b ≤
        MetricsServer.memoryRowUnutilized a) ∧
    c5_rows.getLast? =
      some (MetricsServer.MemoryRow.total 13 3 (3 / 8) 10) := by
  have hms : [c5_m1, c5_m2].mergeSort
      (fun a b => decide (b.unutilized_memory ≤ a.unutilized_memory)) =
      [c5_m1, c5_m2] :=
    List.mergeSort_of_sorted (by decide)
  have h := table_sorted_and_total_last.1 [c5_m1, c5_m2] c5_rows (by
    simp only [MetricsServer.format_memory_metrics_as_table,
      MetricsServer.pydiv, hms]
    norm_num [c5_m1, c5_m2, c5_rows])
  refine ⟨h.1, ?_⟩
  rw [h.2]
  norm_num [c5_m1, c5_m2]

/-- A concrete backend series with two aligned points, valued 1 and 5. -/
def c4_series : TimeSeries :=
  ⟨"prod", "api", "api-deploy", [⟨⟨1, 1⟩⟩, ⟨⟨5, 5⟩⟩]⟩

/-- Counterexample for claim C4: for a series whose points are valued 1 and
then 5, the handlers write `memory_request = 1`, `avg_cpu_usage = 1` and
`cpu_request = 1` - the first point's value - although the claim demands the
max-point value 5, the mean 3, and the max-point value 5 respectively. -/
theorem first_point_fields_counterexample :
    (∃ m : MetricsClient.ContainerMetrics,
      MetricsClient.query_memory_request [] [c4_series] =
        .ok [(container_key c4_series, m)] ∧
      m.memory_request = 1 ∧
      (5 : ℤ) ∈ c4_series.points.map (fun q => q.value.int64_value) ∧
      ¬ (∀ x ∈ c4_series.points.map (fun q => q.value.int64_value),
          x ≤ m.memory_request)) ∧
    (∃ m : MetricsClient.ContainerMetrics,
      MetricsClient.query_avg_cpu_usage [] [c4_series] =
        .ok [(container_key c4_series, m)] ∧
      m.avg_cpu_usage = 1 ∧
      ((c4_series.points.map (fun q => q.value.double_value)).sum /
        (c4_series.points.length : ℚ)) = 3 ∧
      m.avg_cpu_usage ≠ 3) ∧
    (∃ m : MetricsClient.ContainerMetrics,
      MetricsClient.query_cpu_request [] [c4_series] =
        .ok [(container_key c4_series, m)] ∧
      m.cpu_request = 1 ∧
      ¬ (∀ x ∈ c4_series.points.map (fun q => q.value.double_value),
          x ≤ m.cpu_request)) := by
  refine ⟨⟨{ container_name := "api",
             top_level_controller_name := "api-deploy",
             namespace_name := "prod", memory_request := 1 },
      by rfl, rfl, ?_, ?_⟩,
    ⟨{ container_name := "api",
       top_level_controller_name := "api-deploy",
       namespace_name := "prod", avg_cpu_usage := 1 },
      by rfl, rfl, ?_, ?_⟩,
    ⟨{ container_name := "api",
       top_level_controller_name := "api-deploy",
       namespace_name := "prod", cpu_request := 1 },
      by rfl, rfl, ?_⟩⟩
  · decide
  · decide
  · norm_num [c4_series]
  · norm_num
  · intro h
    have h5 := h 5 (by norm_num [c4_series])
    norm_num at h5

/-- Claim C4 (amended): for every series with points `p :: ps`, the three
mean-reduced utilization/usage handlers write the mean of the points'
values, the two max-reduced usage handlers write the value of the
max-valued point, but `memory_request`, `avg_cpu_usage` and `cpu_request`
write the first point's value rather than re-aggregating with the requested
reducer semantics. -/
theorem per_series_field_values (ns cn tlc : String) (p : Point) (ps : List Point) :
    (MetricsClient.query_avg_memory_request_utilization []
        [⟨ns, cn, tlc, p :: ps⟩] =
      .ok [((ns, cn, tlc),
        { container_name := cn, top_level_controller_name := tlc,
          namespace_name := ns,
          avg_memory_request_utilization :=
            ((p :: ps).map (fun q => q.value.double_value)).sum /
              (((p :: ps).length : ℚ)) })]) ∧
    (MetricsClient.query_max_memory_usage [] [⟨ns, cn, tlc, p :: ps⟩] =
      .ok [((ns, cn, tlc),
        { container_name := cn, top_level_controller_name := tlc,
          namespace_name := ns,
          max_memory_usage :=
            (ps.map (fun q => q.value.int64_value)).foldl max
              p.value.int64_value })] ∧
      ((ps.map (fun q => q.value.int64_value)).foldl max p.value.int64_value)
        ∈ (p :: ps).map (fun q => q.value.int64_value) ∧
      ∀ x ∈ (p :: ps).map (fun q => q.value.int64_value),
        x ≤ (ps.map (fun q => q.value.int64_value)).foldl max
          p.value.int64_value) ∧
    (MetricsClient.query_avg_memory_usage [] [⟨ns, cn, tlc, p :: ps⟩] =
      .ok [((ns, cn, tlc),
        { container_name := cn, top_level_controller_name := tlc,
          namespace_name := ns,
          avg_memory_usage :=
            ((p :: ps).map (fun q => q.value.double_value)).sum /
              (((p :: ps).length : ℚ)) })]) ∧
    (MetricsClient.query_memory_request [] [⟨ns, cn, tlc, p :: ps⟩] =
      .ok [((ns, cn, tlc),
        { container_name := cn, top_level_controller_name := tlc,
          namespace_name := ns,
          memory_request := p.value.int64_value })]) ∧
    (MetricsClient.query_avg_cpu_request_utilization []
        [⟨ns, cn, tlc, p :: ps⟩] =
      .ok [((ns, cn, tlc),
        { container_name := cn, top_level_controller_name := tlc,
          namespace_name := ns,
          avg_cpu_request_utilization :=
            ((p :: ps).map (fun q => q.value.double_value)).sum /
              (((p :: ps).length : ℚ)) })]) ∧
    (MetricsClient.query_max_cpu_usage [] [⟨ns, cn, tlc, p :: ps⟩] =
      .ok [((ns, cn, tlc),
        { container_name := cn, top_level_controller_name := tlc,
          namespace_name := ns,
          max_cpu_usage :=
            (ps.map (fun q => q.value.double_value)).foldl max
              p.value.double_value })] ∧
      ((ps.map (fun q => q.value.double_value)).foldl max p.value.double_value)
        ∈ (p :: ps).map (fun q => q.value.double_value) ∧
      ∀ x ∈ (p :: ps).map (fun q => q.value.double_value),
        x ≤ (ps.map (fun q => q.value.double_value)).foldl max
          p.value.double_value) ∧
    (MetricsClient.query_avg_cpu_usage [] [⟨ns, cn, tlc, p :: ps⟩] =
      .ok [((ns, cn, tlc),
        { container_name := cn, top_level_controller_name := tlc,
          namespace_name := ns,
          avg_cpu_usage := p.value.double_value })]) ∧
    (MetricsClient.query_cpu_request [] [⟨ns, cn, tlc, p :: ps⟩] =
      .ok [((ns, cn, tlc),
        { container_name := cn, top_level_controller_name := tlc,
          namespace_name := ns,
          cpu_request := p.value.double_value })]) := by
  have hmemI : ((ps.map (fun q => q.value.int64_value)).foldl max
      p.value.int64_value) ∈ (p :: ps).map (fun q => q.value.int64_value) := by
    rcases foldl_max_mem (ps.map (fun q => q.value.int64_value))
        p.value.int64_value with h | h
    · rw [List.map_cons, h]
      exact List.mem_cons_self _ _
    · rw [List.map_cons]
      exact List.mem_cons_of_mem _ h
  have hmemQ : ((ps.map (fun q => q.value.double_value)).foldl max
      p.value.double_value) ∈ (p :: ps).map (fun q => q.value.double_value) := by
    rcases foldl_max_mem (ps.map (fun q => q.value.double_value))
        p.value.double_value with h | h
    · rw [List.map_cons, h]
      exact List.mem_cons_self _ _
    · rw [List.map_cons]
      exact List.mem_cons_of_mem _ h
  have hubI : ∀ x ∈ (p :: ps).map (fun q => q.value.int64_value),
      x ≤ (ps.map (fun q => q.value.int64_value)).foldl max
        p.value.int64_value := by
    intro x hx
    rw [List.map_cons] at hx
    rcases List.mem_cons.mp hx with h | h
    · rw [h]
      exact foldl_max_le_init _ _
    · exact le_foldl_max_of_mem _ _ _ h
  have hubQ : ∀ x ∈ (p :: ps).map (fun q => q.value.double_value),
      x ≤ (ps.map (fun q => q.value.double_value)).foldl max
        p.value.double_value := by
    intro x hx
    rw [List.map_cons] at hx
    rcases List.mem_cons.mp hx with h | h
    · rw [h]
      exact foldl_max_le_init _ _
    · exact le_foldl_max_of_mem _ _ _ h
  refine ⟨?_, ⟨?_, hmemI, hubI⟩, ?_, ?_, ?_, ⟨?_, hmemQ, hubQ⟩, ?_, ?_⟩ <;>
    simp [MetricsClient.query_avg_memory_request_utilization,
      MetricsClient.query_max_memory_usage,
      MetricsClient.query_avg_memory_usage,
      MetricsClient.query_memory_request,
      MetricsClient.query_avg_cpu_request_utilization,
      MetricsClient.query_max_cpu_usage,
      MetricsClient.query_avg_cpu_usage,
      MetricsClient.query_cpu_request,
      run_handler, upsert_container, find_container, update_entry,
      container_key, MetricsClient.new_container,
      mean_point_double, max_point_int64, max_point_double,
      first_point_int64, first_point_double]

/-- Witness for claim C4 at the concrete two-point series: the
`request_bytes` handler writes the first point's value 1. -/
theorem per_series_field_values_witness :
    MetricsClient.query_memory_request [] [c4_series] =
      .ok [(("prod", "api", "api-deploy"),
        { container_name := "api", top_level_controller_name := "api-deploy",
          namespace_name := "prod", memory_request := 1 })] :=
  (per_series_field_values "prod" "api" "api-deploy" ⟨⟨1, 1⟩⟩ [⟨⟨5, 5⟩⟩]).2.2.2.1

/-- Claim C9: a field no query result wrote keeps its default 0.  For every
entry of a memory aggregation call: each memory field is 0 when the entry's
key is absent from the corresponding query's results, every cpu field is 0,
and - when the usage points are (physically sensible) nonnegative - a
container absent from the `request_bytes` results ends with
`memory_request = 0` and hence `unutilized_memory = 0`. -/
theorem missing_results_default_zero :
    ∀ (r : MetricsClient.MemoryQueryResults) (st' : MetricsClient.MetricsTable)
      (k : ContainerKey) (m : MetricsClient.ContainerMetrics),
    MetricsClient.query_memory_utilization_entries r = .ok st' →
    (k, m) ∈ st' →
    ((k ∉ r.request_bytes.map container_key → m.memory_request = 0) ∧
     (k ∉ r.request_utilization.map container_key →
        m.avg_memory_request_utilization = 0) ∧
     (k ∉ r.used_bytes_mean.map container_key → m.avg_memory_usage = 0) ∧
     (k ∉ r.used_bytes_max.map container_key → m.max_memory_usage = 0) ∧
     (m.cpu_request = 0 ∧ m.avg_cpu_usage = 0 ∧
      m.avg_cpu_request_utilization = 0 ∧ m.max_cpu_usage = 0 ∧
      m.unutilized_cpu = 0) ∧
     ((∀ ts ∈ r.used_bytes_max, ∀ pt ∈ ts.points, 0 ≤ pt.value.int64_value) →
      k ∉ r.request_bytes.map container_key →
      m.memory_request = 0 ∧ m.unutilized_memory = 0)) := by
  intro r st' k m hok hmem
  obtain ⟨st1, st2, st3, st4, h1, h2, h3, h4, hfin⟩ :=
    MetricsClient.memory_entries_decomp r st' hok
  subst hfin
  obtain ⟨m0, hm0, hov, hm'⟩ := MetricsClient.mem_finalize_memory st4 k m hmem
  subst hm'
  have hreq : k ∉ r.request_bytes.map container_key →
      m0.memory_request = 0 := by
    intro hk
    have hb4 : (k, m0) ∈ st3 :=
      (run_handler_untouched_key r.request_bytes k hk st3 st4 h4 m0).mp hm0
    rcases @run_handler_field_trace _ ℚ ℤ MetricsClient.new_container
        mean_point_double (fun v m2 => { m2 with avg_memory_usage := v })
        (fun m2 => m2.memory_request) 0 (fun a m2 => rfl) (fun ts => rfl)
        r.used_bytes_mean st2 st3 k m0 h3 hb4 with ⟨m2, hm2, he2⟩ | hz
    · rcases @run_handler_field_trace _ ℤ ℤ MetricsClient.new_container
          max_point_int64 (fun v m3 => { m3 with max_memory_usage := v })
          (fun m3 => m3.memory_request) 0 (fun a m3 => rfl) (fun ts => rfl)
          r.used_bytes_max st1 st2 k m2 h2 hm2 with ⟨m3, hm3, he3⟩ | hz
      · rcases @run_handler_field_trace _ ℚ ℤ MetricsClient.new_container
            mean_point_double
            (fun v m4 => { m4 with avg_memory_request_utilization := v })
            (fun m4 => m4.memory_request) 0 (fun a m4 => rfl) (fun ts => rfl)
            r.request_utilization [] st1 k m3 h1 hm3 with ⟨m4, hm4, _⟩ | hz
        · exact absurd hm4 (List.not_mem_nil _)
        · rw [he2, he3, hz]
      · rw [he2, hz]
    · exact hz
  have hmaxnn : (∀ ts ∈ r.used_bytes_max, ∀ pt ∈ ts.points,
      0 ≤ pt.value.int64_value) → 0 ≤ m0.max_memory_usage := by
    intro hnn
    have i1 := @run_handler_invariant _ ℚ MetricsClient.new_container
      mean_point_double
      (fun v m2 => { m2 with avg_memory_request_utilization := v })
      (fun m2 => 0 ≤ m2.max_memory_usage) (fun ts => le_refl 0)
      r.request_utilization (fun ts _ a _ m2 hm2 => hm2) [] st1 h1
      (fun k2 m2 h => absurd h (List.not_mem_nil _))
    have i2 := @run_handler_invariant _ ℤ MetricsClient.new_container
      max_point_int64 (fun v m2 => { m2 with max_memory_usage := v })
      (fun m2 => 0 ≤ m2.max_memory_usage) (fun ts => le_refl 0)
      r.used_bytes_max ?_ st1 st2 h2 i1
    · have i3 := @run_handler_invariant _ ℚ MetricsClient.new_container
        mean_point_double (fun v m2 => { m2 with avg_memory_usage := v })
        (fun m2 => 0 ≤ m2.max_memory_usage) (fun ts => le_refl 0)
        r.used_bytes_mean (fun ts _ a _ m2 hm2 => hm2) st2 st3 h3 i2
      have i4 := @run_handler_invariant _ ℤ MetricsClient.new_container
        first_point_int64 (fun v m2 => { m2 with memory_request := v })
        (fun m2 => 0 ≤ m2.max_memory_usage) (fun ts => le_refl 0)
        r.request_bytes (fun ts _ a _ m2 hm2 => hm2) st3 st4 h4 i3
      exact i4 k m0 hm0
    · intro ts hts a hex m2 _
      cases hpts : ts.points with
      | nil =>
        rw [hpts] at hex
        exact absurd hex (by simp [max_point_int64])
      | cons p ps =>
        rw [hpts] at hex
        simp only [max_point_int64, Except.ok.injEq] at hex
        rw [← hex]
        refine le_trans ?_ (foldl_max_le_init _ _)
        refine hnn ts hts p ?_
        rw [hpts]
        exact List.mem_cons_self _ _
  refine ⟨hreq, ?_, ?_, ?_, ?_, ?_⟩
  · intro hk
    rcases @run_handler_field_trace _ ℤ ℚ MetricsClient.new_container
        first_point_int64 (fun v m2 => { m2 with memory_request := v })
        (fun m2 => m2.avg_memory_request_utilization) 0 (fun a m2 => rfl)
        (fun ts => rfl) r.request_bytes st3 st4 k m0 h4 hm0 with
      ⟨m2, hm2, he2⟩ | hz
    · rcases @run_handler_field_trace _ ℚ ℚ MetricsClient.new_container
          mean_point_double (fun v m3 => { m3 with avg_memory_usage := v })
          (fun m3 => m3.avg_memory_request_utilization) 0 (fun a m3 => rfl)
          (fun ts => rfl) r.used_bytes_mean st2 st3 k m2 h3 hm2 with
        ⟨m3, hm3, he3⟩ | hz
      · rcases @run_handler_field_trace _ ℤ ℚ MetricsClient.new_container
            max_point_int64 (fun v m4 => { m4 with max_memory_usage := v })
            (fun m4 => m4.avg_memory_request_utilization) 0 (fun a m4 => rfl)
            (fun ts => rfl) r.used_bytes_max st1 st2 k m3 h2 hm3 with
          ⟨m4, hm4, he4⟩ | hz
        · have hb1 : (k, m4) ∈ ([] : MetricsClient.MetricsTable) :=
            (run_handler_untouched_key r.request_utilization k hk [] st1 h1
              m4).mp hm4
          exact absurd hb1 (List.not_mem_nil _)
        · rw [he2, he3, hz]
      · rw [he2, hz]
    · exact hz
  · intro hk
    rcases @run_handler_field_trace _ ℤ ℚ MetricsClient.new_container
        first_point_int64 (fun v m2 => { m2 with memory_request := v })
        (fun m2 => m2.avg_memory_usage) 0 (fun a m2 => rfl)
        (fun ts => rfl) r.request_bytes st3 st4 k m0 h4 hm0 with
      ⟨m2, hm2, he2⟩ | hz
    · have hb3 : (k, m2) ∈ st2 :=
        (run_handler_untouched_key r.used_bytes_mean k hk st2 st3 h3 m2).mp hm2
      rcases @run_handler_field_trace _ ℤ ℚ MetricsClient.new_container
          max_point_int64 (fun v m3 => { m3 with max_memory_usage := v })
          (fun m3 => m3.avg_memory_usage) 0 (fun a m3 => rfl)
          (fun ts => rfl) r.used_bytes_max st1 st2 k m2 h2 hb3 with
        ⟨m3, hm3, he3⟩ | hz
      · rcases @run_handler_field_trace _ ℚ ℚ MetricsClient.new_container
            mean_point_double
            (fun v m4 => { m4 with avg_memory_request_utilization := v })
            (fun m4 => m4.avg_memory_usage) 0 (fun a m4 => rfl)
            (fun ts => rfl) r.request_utilization [] st1 k m3 h1 hm3 with
          ⟨m4, hm4, _⟩ | hz
        · exact absurd hm4 (List.not_mem_nil _)
        · rw [he2, he3, hz]
      · rw [he2, hz]
    · exact hz
  · intro hk
    rcases @run_handler_field_trace _ ℤ ℤ MetricsClient.new_container
        first_point_int64 (fun v m2 => { m2 with memory_request := v })
        (fun m2 => m2.max_memory_usage) 0 (fun a m2 => rfl)
        (fun ts => rfl) r.request_bytes st3 st4 k m0 h4 hm0 with
      ⟨m2, hm2, he2⟩ | hz
    · rcases @run_handler_field_trace _ ℚ ℤ MetricsClient.new_container
          mean_point_double (fun v m3 => { m3 with avg_memory_usage := v })
          (fun m3 => m3.max_memory_usage) 0 (fun a m3 => rfl)
          (fun ts => rfl) r.used_bytes_mean st2 st3 k m2 h3 hm2 with
        ⟨m3, hm3, he3⟩ | hz
      · have hb2 : (k, m3) ∈ st1 :=
          (run_handler_untouched_key r.used_bytes_max k hk st1 st2 h2 m3).mp hm3
        rcases @run_handler_field_trace _ ℚ ℤ MetricsClient.new_container
            mean_point_double
            (fun v m4 => { m4 with avg_memory_request_utilization := v })
            (fun m4 => m4.max_memory_usage) 0 (fun a m4 => rfl)
            (fun ts => rfl) r.request_utilization [] st1 k m3 h1 hb2 with
          ⟨m4, hm4, _⟩ | hz
        · exact absurd hm4 (List.not_mem_nil _)
        · rw [he2, he3, hz]
      · rw [he2, hz]
    · exact hz
  · have hcpu : ∀ k2 m2, (k2, m2) ∈ st4 →
        (m2.cpu_request, m2.avg_cpu_usage, m2.avg_cpu_request_utilization,
          m2.max_cpu_usage, m2.unutilized_cpu) = (0, 0, 0, 0, 0) := by
      have j1 := @run_handler_invariant _ ℚ MetricsClient.new_container
        mean_point_double
        (fun v m2 => { m2 with avg_memory_request_utilization := v })
        (fun m2 => (m2.cpu_request, m2.avg_cpu_usage,
          m2.avg_cpu_request_utilization, m2.max_cpu_usage,
          m2.unutilized_cpu) = (0, 0, 0, 0, 0)) (fun ts => rfl)
        r.request_utilization (fun ts _ a _ m2 hm2 => hm2) [] st1 h1
        (fun k2 m2 h => absurd h (List.not_mem_nil _))
      have j2 := @run_handler_invariant _ ℤ MetricsClient.new_container
        max_point_int64 (fun v m2 => { m2 with max_memory_usage := v })
        (fun m2 => (m2.cpu_request, m2.avg_cpu_usage,
          m2.avg_cpu_request_utilization, m2.max_cpu_usage,
          m2.unutilized_cpu) = (0, 0, 0, 0, 0)) (fun ts => rfl)
        r.used_bytes_max (fun ts _ a _ m2 hm2 => hm2) st1 st2 h2 j1
      have j3 := @run_handler_invariant _ ℚ MetricsClient.new_container
        mean_point_double (fun v m2 => { m2 with avg_memory_usage := v })
        (fun m2 => (m2.cpu_request, m2.avg_cpu_usage,
          m2.avg_cpu_request_utilization, m2.max_cpu_usage,
          m2.unutilized_cpu) = (0, 0, 0, 0, 0)) (fun ts => rfl)
        r.used_bytes_mean (fun ts _ a _ m2 hm2 => hm2) st2 st3 h3 j2
      exact @run_handler_invariant _ ℤ MetricsClient.new_container
        first_point_int64 (fun v m2 => { m2 with memory_request := v })
        (fun m2 => (m2.cpu_request, m2.avg_cpu_usage,
          m2.avg_cpu_request_utilization, m2.max_cpu_usage,
          m2.unutilized_cpu) = (0, 0, 0, 0, 0)) (fun ts => rfl)
        r.request_bytes (fun ts _ a _ m2 hm2 => hm2) st3 st4 h4 j3
    have h5 := hcpu k m0 hm0
    rw [Prod.mk.injEq, Prod.mk.injEq, Prod.mk.injEq, Prod.mk.injEq] at h5
    exact ⟨h5.1, h5.2.1, h5.2.2.1, h5.2.2.2.1, h5.2.2.2.2⟩
  · intro hnn hk
    have hr0 := hreq hk
    have hx0 := hmaxnn hnn
    refine ⟨hr0, ?_⟩
    show max 0 (m0.memory_request - m0.max_memory_usage) = 0
    rw [hr0]
    exact max_eq_left (by omega)

/-- Backend answers used to witness claim C9: only the memory `used_bytes`
max query returns a series, so `memory_request` is never written. -/
def c9_memory_results : MetricsClient.MemoryQueryResults :=
  { request_utilization := []
    used_bytes_max := [⟨"prod", "api", "api-deploy", [⟨⟨7, 7⟩⟩]⟩]
    used_bytes_mean := []
    request_bytes := [] }

/-- The record the aggregation of `c9_memory_results` produces. -/
def c9_record : MetricsClient.ContainerMetrics :=
  { container_name := "api"
    top_level_controller_name := "api-deploy"
    namespace_name := "prod"
    max_memory_usage := 7 }

/-- Witness for claim C9: the container seen only by the usage query ends
with `memory_request = 0` and `unutilized_memory = 0`. -/
theorem missing_results_default_zero_witness :
    c9_record.memory_request = 0 ∧ c9_record.unutilized_memory = 0 :=
  (missing_results_default_zero c9_memory_results
      [(("prod", "api", "api-deploy"), c9_record)]
      ("prod", "api", "api-deploy") c9_record (by rfl)
      (by decide)).2.2.2.2.2
    (by decide) (by decide)

/-- Claim C10: each per-series value computation succeeds exactly when the
series has at least one point, and a series with zero points anywhere in a
memory or cpu aggregation call's results aborts the whole call with an
error. -/
theorem empty_points_abort :
    (∀ pts : List Point, (∃ v, first_point_int64 pts = .ok v) ↔ pts ≠ []) ∧
    (∀ pts : List Point, (∃ v, first_point_double pts = .ok v) ↔ pts ≠ []) ∧
    (∀ pts : List Point, (∃ v, max_point_int64 pts = .ok v) ↔ pts ≠ []) ∧
    (∀ pts : List Point, (∃ v, max_point_double pts = .ok v) ↔ pts ≠ []) ∧
    (∀ pts : List Point, (∃ v, mean_point_double pts = .ok v) ↔ pts ≠ []) ∧
    (∀ (r : MetricsClient.MemoryQueryResults) (ts : TimeSeries),
      (ts ∈ r.request_utilization ∨ ts ∈ r.used_bytes_max ∨
        ts ∈ r.used_bytes_mean ∨ ts ∈ r.request_bytes) →
      ts.points = [] →
      ∃ e, MetricsClient.query_memory_utilization_entries r = .error e) ∧
    (∀ (r : MetricsClient.CpuQueryResults) (ts : TimeSeries),
      (ts ∈ r.request_utilization ∨ ts ∈ r.core_usage_time_max ∨
        ts ∈ r.core_usage_time_mean ∨ ts ∈ r.request_cores) →
      ts.points = [] →
      ∃ e, MetricsClient.query_cpu_utilization_entries r = .error e) := by
  refine ⟨?_, ?_, ?_, ?_, ?_, ?_, ?_⟩
  · intro pts
    cases pts with
    | nil => simp [first_point_int64]
    | cons p ps => simp [first_point_int64]
  · intro pts
    cases pts with
    | nil => simp [first_point_double]
    | cons p ps => simp [first_point_double]
  · intro pts
    cases pts with
    | nil => simp [max_point_int64]
    | cons p ps => simp [max_point_int64]
  · intro pts
    cases pts with
    | nil => simp [max_point_double]
    | cons p ps => simp [max_point_double]
  · intro pts
    cases pts with
    | nil => simp [mean_point_double]
    | cons p ps => simp [mean_point_double]
  · intro r ts hmem hpts
    cases hres : MetricsClient.query_memory_utilization_entries r with
    | error e => exact ⟨e, rfl⟩
    | ok st' =>
      exfalso
      obtain ⟨st1, st2, st3, st4, h1, h2, h3, h4, _⟩ :=
        MetricsClient.memory_entries_decomp r st' hres
      rcases hmem with h | h | h | h
      · obtain ⟨e, he⟩ : ∃ e,
            MetricsClient.query_avg_memory_request_utilization []
              r.request_utilization = .error e :=
          run_handler_error_of_empty rfl r.request_utilization ts h hpts []
        rw [he] at h1
        exact absurd h1 (by simp)
      · obtain ⟨e, he⟩ : ∃ e,
            MetricsClient.query_max_memory_usage st1 r.used_bytes_max =
              .error e :=
          run_handler_error_of_empty rfl r.used_bytes_max ts h hpts st1
        rw [he] at h2
        exact absurd h2 (by simp)
      · obtain ⟨e, he⟩ : ∃ e,
            MetricsClient.query_avg_memory_usage st2 r.used_bytes_mean =
              .error e :=
          run_handler_error_of_empty rfl r.used_bytes_mean ts h hpts st2
        rw [he] at h3
        exact absurd h3 (by simp)
      · obtain ⟨e, he⟩ : ∃ e,
            MetricsClient.query_memory_request st3 r.request_bytes =
              .error e :=
          run_handler_error_of_empty rfl r.request_bytes ts h hpts st3
        rw [he] at h4
        exact absurd h4 (by simp)
  · intro r ts hmem hpts
    cases hres : MetricsClient.query_cpu_utilization_entries r with
    | error e => exact ⟨e, rfl⟩
    | ok st' =>
      exfalso
      obtain ⟨st1, st2, st3, st4, h1, h2, h3, h4, _⟩ :=
        MetricsClient.cpu_entries_decomp r st' hres
      rcases hmem with h | h | h | h
      · obtain ⟨e, he⟩ : ∃ e,
            MetricsClient.query_avg_cpu_request_utilization []
              r.request_utilization = .error e :=
          run_handler_error_of_empty rfl r.request_utilization ts h hpts []
        rw [he] at h1
        exact absurd h1 (by simp)
      · obtain ⟨e, he⟩ : ∃ e,
            MetricsClient.query_max_cpu_usage st1 r.core_usage_time_max =
              .error e :=
          run_handler_error_of_empty rfl r.core_usage_time_max ts h hpts st1
        rw [he] at h2
        exact absurd h2 (by simp)
      · obtain ⟨e, he⟩ : ∃ e,
            MetricsClient.query_avg_cpu_usage st2 r.core_usage_time_mean =
              .error e :=
          run_handler_error_of_empty rfl r.core_usage_time_mean ts h hpts st2
        rw [he] at h3
        exact absurd h3 (by simp)
      · obtain ⟨e, he⟩ : ∃ e,
            MetricsClient.query_cpu_request st3 r.request_cores = .error e :=
          run_handler_error_of_empty rfl r.request_cores ts h hpts st3
        rw [he] at h4
        exact absurd h4 (by simp)

/-- A series with no points, as returned for the memory `request_bytes`
query in the C10 witness. -/
def c10_series : TimeSeries :=
  ⟨"prod", "api", "api-deploy", []⟩

/-- Backend answers used to witness claim C10. -/
def c10_memory_results : MetricsClient.MemoryQueryResults :=
  { request_utilization := []
    used_bytes_max := []
    used_bytes_mean := []
    request_bytes := [c10_series] }

/-- Witness for claim C10: the empty-points series aborts the whole memory
aggregation call. -/
theorem empty_points_abort_witness :
    ∃ e, MetricsClient.query_memory_utilization_entries c10_memory_results =
      .error e :=
  empty_points_abort.2.2.2.2.2.1 c10_memory_results c10_series
    (Or.inr (Or.inr (Or.inr (by decide)))) (by decide)

/-- Witness for claim C7 at concrete values from the spec's boundary list. -/
theorem gradient_tiers_witness :
    MetricsServer.memory_bytes_gradient (150 * 1024 ^ 2) =
      MetricsServer.Color.yellow ∧
    MetricsServer.percentage_gradient (3 / 10) = MetricsServer.Color.yellow :=
  ⟨(gradient_tiers (150 * 1024 ^ 2)).2.2.2.2.1.mpr (by norm_num),
   (gradient_tiers (3 / 10)).2.1.mpr (by norm_num)⟩
